import Mathlib

/-!
# Verification of the Clueless-Admin monitor suite

A shallow embedding, in Lean 4, of the parts of the Clueless-Admin Linux
host-introspection tool that its specification makes claims about:

* the uniform response envelope (`response.py`),
* the poll-and-persist loop skeleton shared by every monitor family
  (`num_calls` computation, run-directory creation, iteration file naming),
* the kallsyms snapshot (`kallsyms_monitor.py`),
* the networking monitors (`networking_monitor.py`),
* the io_uring monitor (`io_uring_monitor.py`),
* the eBPF monitor (`ebpf_monitor.py`),
* the process monitor stat-line parsing (`process_monitor.py`).

Python dicts that end up serialized with `json.dump` are modelled by the
`JVal` type of JSON values.  Impure inputs (the clock, `/proc` file contents,
subprocess outcomes, the effective UID) are passed explicitly as environment
records, turning each monitor function into a total Lean function.  Python
`try/except` blocks are modelled with `Except` where the exception is caught
further out, and by the functions simply returning the handler result where
the handler is local.
-/

namespace CluelessAdmin

/-- JSON values, the codomain of every monitor function once Python dicts are
serialized.  Python `None`/`bool`/`int`/`str`/`list`/`dict` map to the six
constructors; dict insertion order is kept, as `json.dump` keeps it. -/
inductive JVal where
  | null : JVal
  | bool (b : Bool) : JVal
  | num (n : Int) : JVal
  | str (s : String) : JVal
  | arr (elems : List JVal) : JVal
  | obj (fields : List (String × JVal)) : JVal
deriving Repr

/-- First value bound to key `k`, as Python dict lookup on our ordered model
(keys written by the repository are never duplicated). -/
def JVal.lookup : JVal → String → Option JVal
  | .obj fields, k => fields.lookup k
  | _, _ => none

/-- Whether a JSON value is an object carrying key `k`. -/
def JVal.hasKey (v : JVal) (k : String) : Bool :=
  (v.lookup k).isSome

/-- The ordered key list of an object, `none` for non-objects. -/
def JVal.objKeys : JVal → Option (List String)
  | .obj fields => some (fields.map Prod.fst)
  | _ => none

/-- Whether a JSON value is an object at all. -/
def JVal.isObj : JVal → Bool
  | .obj _ => true
  | _ => false

/-! ## Response envelope (`response.py`)

`TaskType` only ever takes the value `STATE`; `ErrorCode` is the `IntEnum`
of `response.py`.  The wall clock consumed by `iso_utc_timestamp()` is passed
in as the `now` argument. -/

/-- `ErrorCode.INVALID_ARGUMENTS` of `response.py`. -/
def INVALID_ARGUMENTS : Int := 1

/-- `ErrorCode.TOOL_NOT_AVAILABLE` of `response.py`. -/
def TOOL_NOT_AVAILABLE : Int := 1000

/-- `ErrorCode.EXECUTION_FAILURE` of `response.py`. -/
def EXECUTION_FAILURE : Int := 1001

/-- `ErrorCode.IO_FAILURE` of `response.py`. -/
def IO_FAILURE : Int := 1002

/-- `make_success_response` of `response.py`: the Python `subtype or ""`
collapses both `None` and `""` to `""`, here `Option.getD`. -/
def make_success_response (now : String) (task_type : String)
    (subtype : Option String) (data : JVal) : JVal :=
  .obj [("timestamp", .str now),
        ("status", .str "SUCCESS"),
        ("metadata", .obj [("task_type", .str task_type),
                           ("subtype", .str (subtype.getD ""))]),
        ("data", data)]

/-- `make_error_response` of `response.py`. -/
def make_error_response (now : String) (task_type : String)
    (subtype : Option String) (code : Int) (message : String) : JVal :=
  .obj [("timestamp", .str now),
        ("status", .str "FAILURE"),
        ("metadata", .obj [("task_type", .str task_type),
                           ("subtype", .str (subtype.getD ""))]),
        ("error", .obj [("code", .num code),
                        ("message", .str message)])]

/-- The envelope shape asserted by the spec: a JSON object holding
`timestamp`, `status`, `metadata.task_type`, `metadata.subtype`, and exactly
one of `data` / `error`. -/
def envelopeShape (v : JVal) : Bool :=
  v.hasKey "timestamp" && v.hasKey "status" &&
  (match v.lookup "metadata" with
   | some m => m.hasKey "task_type" && m.hasKey "subtype"
   | none => false) &&
  (v.hasKey "data" != v.hasKey "error")

/-! ## The shared poll-and-persist loop skeleton

Every monitor family's `call` computes
`num_calls = int(duration // frequency); if duration % frequency != 0:
num_calls += 1` (verbatim in `process_monitor.py`, `networking_monitor.py`,
`kallsyms_monitor.py`, `io_uring_monitor.py`, `ebpf_monitor.py`,
`modules_monitor.py`, `ftrace_monitor.py`, `file_system_monitor.py`) and then
runs `for i in range(num_calls)`, breaking early when the elapsed wall time
already exceeds `duration`, writing one file
`<kind>_<root_timestamp>_<i>.json` per snapshot kind per surviving
iteration.  Python `//` and `%` are floor division and floor-signed
remainder, i.e. `Int.fdiv` / `Int.fmod`. -/

/-- The duplicated iteration-count computation of every `call`. -/
def num_calls (duration frequency : Int) : Int :=
  Int.fdiv duration frequency +
    (if Int.fmod duration frequency ≠ 0 then 1 else 0)

/-- Iteration file name `<kind>_<root>_<i>.json`. -/
def iterFileName (kind root : String) (i : Nat) : String :=
  kind ++ "_" ++ root ++ "_" ++ toString i ++ ".json"

/-- The body of `for i in range(n)` with the early `elapsed > duration`
break: `elapsed i` is the wall time observed at the top of iteration `i`.
Returns the file names written, in order. -/
def loopRun (elapsed : Nat → Int) (duration : Int) (kind root : String) :
    Nat → Nat → List String
  | 0, _ => []
  | Nat.succ fuel, i =>
    if elapsed i > duration then []
    else iterFileName kind root i :: loopRun elapsed duration kind root fuel (i + 1)

/-- File names a monitor-family loop writes for one snapshot kind: `range
num_calls` filtered by the early-exit check. -/
def writtenFiles (elapsed : Nat → Int) (duration frequency : Int)
    (kind root : String) : List String :=
  loopRun elapsed duration kind root (num_calls duration frequency).toNat 0

theorem loopRun_no_break (elapsed : Nat → Int) (d : Int) (kind root : String)
    (h : ∀ i, elapsed i ≤ d) :
    ∀ n i, loopRun elapsed d kind root n i =
      (List.range n).map (fun j => iterFileName kind root (i + j)) := by
  intro n
  induction n with
  | zero => intro i; simp [loopRun]
  | succ m ih =>
    intro i
    have hnb : ¬ elapsed i > d := not_lt.mpr (h i)
    rw [loopRun, if_neg hnb, ih (i + 1), List.range_succ_eq_map,
      List.map_cons, List.map_map]
    congr 1
    apply List.map_congr_left
    intro j _
    simp [Function.comp, Nat.add_assoc, Nat.add_comm 1 j]

theorem num_calls_pos_eq (d f : Int) (hf : 0 < f) :
    num_calls d f = d / f + (if d % f ≠ 0 then 1 else 0) := by
  unfold num_calls
  rw [Int.fdiv_eq_ediv _ (le_of_lt hf), Int.fmod_eq_emod _ (le_of_lt hf)]

theorem num_calls_eq_ceil (d f : Int) (hd : 0 < d) (hf : 0 < f) :
    num_calls d f = ⌈(d : ℚ) / (f : ℚ)⌉ := by
  have hfQ : (0 : ℚ) < (f : ℚ) := by exact_mod_cast hf
  have hdecomp : f * (d / f) + d % f = d := Int.ediv_add_emod d f
  rw [num_calls_pos_eq d f hf]
  by_cases hr : d % f = 0
  · have hd' : d = f * (d / f) := by omega
    rw [if_neg (by simp [hr]), add_zero]
    have : (d : ℚ) / (f : ℚ) = ((d / f : ℤ) : ℚ) := by
      rw [hd']
      push_cast
      field_simp
    rw [this, Int.ceil_intCast]
  · rw [if_pos hr]
    symm
    rw [Int.ceil_eq_iff]
    constructor
    · push_cast
      rw [lt_div_iff hfQ]
      have : ((d / f : ℤ) : ℚ) * (f : ℚ) = ((f * (d / f) : ℤ) : ℚ) := by
        push_cast; ring
      rw [add_sub_cancel_right, this]
      have hrpos : 0 < d % f :=
        lt_of_le_of_ne (Int.emod_nonneg d (ne_of_gt hf)) (Ne.symm hr)
      exact_mod_cast by omega
    · rw [div_le_iff hfQ]
      have hrlt : d % f < f := Int.emod_lt_of_pos d hf
      have : ((d / f + 1 : ℤ) : ℚ) * (f : ℚ) = ((f * (d / f) + f : ℤ) : ℚ) := by
        push_cast; ring
      rw [this]
      exact_mod_cast by omega

theorem num_calls_one_of_lt (d f : Int) (hd : 0 < d) (hdf : d < f) :
    num_calls d f = 1 := by
  have hf : 0 < f := lt_trans hd hdf
  rw [num_calls_pos_eq d f hf]
  have hdiv : d / f = 0 := Int.ediv_eq_zero_of_lt (le_of_lt hd) hdf
  have hmod : d % f = d := Int.emod_eq_of_lt (le_of_lt hd) hdf
  rw [hdiv, hmod, if_pos (ne_of_gt hd)]
  norm_num

theorem loop_iteration_count_spec (d f : Int) (elapsed : Nat → Int)
    (kind root : String) (hd : 0 < d) (hf : 0 < f)
    (hfast : ∀ i, elapsed i ≤ d) :
    num_calls d f = ⌈(d : ℚ) / (f : ℚ)⌉ ∧
    (d < f → num_calls d f = 1) ∧
    writtenFiles elapsed d f kind root =
      (List.range (num_calls d f).toNat).map (iterFileName kind root) := by
  refine ⟨num_calls_eq_ceil d f hd hf, fun hdf => num_calls_one_of_lt d f hd hdf, ?_⟩
  rw [writtenFiles, loopRun_no_break elapsed d kind root hfast]
  simp

/-! ## `json.dumps` / `json.loads`

`list_iptables_filter_table` returns `json.dumps(result, indent=2)` — a
string — and the networking loop parses such strings back with
`json.loads` before writing.  We model the serializer compactly (the
whitespace `indent=2` inserts is semantically irrelevant to `json.loads`)
and the parser on the corresponding fragment.  Strings escape `"` and `\`;
the values the repository ever round-trips contain no numbers, no booleans
and no control characters, which the `noNums` side condition records. -/

/-- Escaping of one character inside a JSON string literal. -/
def escChar (c : Char) : List Char :=
  if c = '"' then ['\\', '"']
  else if c = '\\' then ['\\', '\\']
  else [c]

/-- Escaping of a character sequence inside a JSON string literal. -/
def escChars : List Char → List Char
  | [] => []
  | c :: cs => escChar c ++ escChars cs

mutual

/-- Serialization of a JSON value, whitespace elided. -/
def dumpChars : JVal → List Char
  | .bool b => if b then ['t', 'r', 'u', 'e'] else ['f', 'a', 'l', 's', 'e']
  | .num n => (toString n).data
  | .null => ['n', 'u', 'l', 'l']
  | .str s => '"' :: (escChars s.data ++ ['"'])
  | .arr [] => ['[', ']']
  | .arr (x :: xs) => '[' :: (dumpElems x xs ++ [']'])
  | .obj [] => ['\x7b', '\x7d']
  | .obj (f :: fs) => '\x7b' :: (dumpFields f fs ++ ['\x7d'])
termination_by v => sizeOf v
decreasing_by all_goals (simp_wf <;> omega)

/-- Comma-separated serialization of a non-empty array body. -/
def dumpElems : JVal → List JVal → List Char
  | x, [] => dumpChars x
  | x, y :: ys => dumpChars x ++ ',' :: dumpElems y ys
termination_by x xs => sizeOf x + sizeOf xs + 1
decreasing_by all_goals (simp_wf <;> omega)

/-- Comma-separated serialization of a non-empty object body. -/
def dumpFields : String × JVal → List (String × JVal) → List Char
  | f, [] => dumpField f
  | f, g :: gs => dumpField f ++ ',' :: dumpFields g gs
termination_by f fs => sizeOf f + sizeOf fs + 1
decreasing_by all_goals (simp_wf <;> omega)

/-- Serialization of one `"key":value` pair. -/
def dumpField : String × JVal → List Char
  | (k, v) => '"' :: (escChars k.data ++ '"' :: ':' :: dumpChars v)
termination_by f => sizeOf f
decreasing_by all_goals (simp_wf <;> omega)

end

mutual

/-- No `num` constructor anywhere inside the value (the repository never
round-trips a number through `json.dumps`/`json.loads`; our parser leaves
numbers out). -/
def noNums : JVal → Bool
  | .null => true
  | .bool _ => true
  | .num _ => false
  | .str _ => true
  | .arr xs => noNumsList xs
  | .obj fs => noNumsFields fs
termination_by v => sizeOf v
decreasing_by all_goals (simp_wf <;> omega)

/-- `noNums` over array elements. -/
def noNumsList : List JVal → Bool
  | [] => true
  | x :: xs => noNums x && noNumsList xs
termination_by xs => sizeOf xs
decreasing_by all_goals (simp_wf <;> omega)

/-- `noNums` over object fields. -/
def noNumsFields : List (String × JVal) → Bool
  | [] => true
  | (_, v) :: fs => noNums v && noNumsFields fs
termination_by fs => sizeOf fs
decreasing_by all_goals (simp_wf <;> omega)

end

/-- Expect a literal character sequence, returning the remainder. -/
def expectLit : List Char → List Char → Option (List Char)
  | [], cs => some cs
  | _ :: _, [] => none
  | l :: ls, c :: cs => if c = l then expectLit ls cs else none

/-- Parse the body of a JSON string literal after the opening quote, up to
and including the closing quote; understands the `\"` and `\\` escapes the
serializer emits. -/
def parseStrAux : List Char → Option (List Char × List Char)
  | [] => none
  | c :: rest =>
    if c = '"' then some ([], rest)
    else if c = '\\' then
      match rest with
      | [] => none
      | e :: rest2 =>
        if e = '"' ∨ e = '\\' then
          (parseStrAux rest2).map (fun p => (e :: p.1, p.2))
        else none
    else (parseStrAux rest).map (fun p => (c :: p.1, p.2))

mutual

/-- Fuel-indexed JSON value parser on the serializer's fragment. -/
def parseVal : Nat → List Char → Option (JVal × List Char)
  | 0, _ => none
  | fuel + 1, cs =>
    match cs with
    | [] => none
    | c :: rest =>
      if c = 'n' then (expectLit ['u', 'l', 'l'] rest).map (fun r => (JVal.null, r))
      else if c = 't' then (expectLit ['r', 'u', 'e'] rest).map (fun r => (JVal.bool true, r))
      else if c = 'f' then (expectLit ['a', 'l', 's', 'e'] rest).map (fun r => (JVal.bool false, r))
      else if c = '"' then (parseStrAux rest).map (fun p => (JVal.str (String.mk p.1), p.2))
      else if c = '[' then
        if rest.head? = some ']' then some (JVal.arr [], rest.tail)
        else (parseElems fuel rest).map (fun p => (JVal.arr p.1, p.2))
      else if c = '\x7b' then
        if rest.head? = some '\x7d' then some (JVal.obj [], rest.tail)
        else (parseFields fuel rest).map (fun p => (JVal.obj p.1, p.2))
      else none

/-- Fuel-indexed parser for a non-empty array body up to `]`. -/
def parseElems : Nat → List Char → Option (List JVal × List Char)
  | 0, _ => none
  | fuel + 1, cs =>
    match parseVal fuel cs with
    | none => none
    | some (v, r) =>
      match r with
      | [] => none
      | c :: r2 =>
        if c = ',' then (parseElems fuel r2).map (fun p => (v :: p.1, p.2))
        else if c = ']' then some ([v], r2)
        else none

/-- Fuel-indexed parser for a non-empty object body up to the closing
brace. -/
def parseFields : Nat → List Char → Option (List (String × JVal) × List Char)
  | 0, _ => none
  | fuel + 1, cs =>
    match cs with
    | [] => none
    | c :: rest =>
      if c = '"' then
        match parseStrAux rest with
        | none => none
        | some (k, r) =>
          match r with
          | [] => none
          | c2 :: r2 =>
            if c2 = ':' then
              match parseVal fuel r2 with
              | none => none
              | some (v, r3) =>
                match r3 with
                | [] => none
                | c3 :: r4 =>
                  if c3 = ',' then
                    (parseFields fuel r4).map
                      (fun p => ((String.mk k, v) :: p.1, p.2))
                  else if c3 = '\x7d' then some ([(String.mk k, v)], r4)
                  else none
            else none
      else none

end

theorem mk_data (s : String) : String.mk s.data = s := rfl

theorem parseStrAux_round (cs rest : List Char) :
    parseStrAux (escChars cs ++ '"' :: rest) = some (cs, rest) := by
  induction cs with
  | nil =>
    rw [escChars, List.nil_append, parseStrAux.eq_def]
    simp
  | cons c cs ih =>
    by_cases h1 : c = '"'
    · subst h1
      rw [escChars, escChar, if_pos rfl]
      rw [List.append_assoc, List.cons_append, List.cons_append,
        List.nil_append, parseStrAux.eq_def]
      simp [ih]
    · by_cases h2 : c = '\\'
      · subst h2
        rw [escChars, escChar, if_neg (by decide), if_pos rfl]
        rw [List.append_assoc, List.cons_append, List.cons_append,
          List.nil_append, parseStrAux.eq_def]
        simp [ih]
      · rw [escChars, escChar, if_neg h1, if_neg h2, List.singleton_append,
          parseStrAux.eq_def]
        simp [h1, h2, ih]

theorem dump_head (v : JVal) (h : noNums v = true) :
    ∃ c t, dumpChars v = c :: t ∧ c ≠ ']' ∧ c ≠ '\x7d' ∧ c ≠ ',' := by
  cases v with
  | null =>
    exact ⟨'n', ['u', 'l', 'l'], by rw [dumpChars], by decide, by decide, by decide⟩
  | bool b =>
    cases b with
    | false =>
      exact ⟨'f', ['a', 'l', 's', 'e'], by simp [dumpChars], by decide, by decide,
        by decide⟩
    | true =>
      exact ⟨'t', ['r', 'u', 'e'], by simp [dumpChars], by decide, by decide, by decide⟩
  | num n => simp [noNums] at h
  | str s =>
    exact ⟨'"', escChars s.data ++ ['"'], by rw [dumpChars], by decide, by decide,
      by decide⟩
  | arr xs =>
    cases xs with
    | nil => exact ⟨'[', [']'], by rw [dumpChars], by decide, by decide, by decide⟩
    | cons x xs =>
      exact ⟨'[', dumpElems x xs ++ [']'], by rw [dumpChars], by decide, by decide,
        by decide⟩
  | obj fs =>
    cases fs with
    | nil =>
      exact ⟨'\x7b', ['\x7d'], by rw [dumpChars], by decide, by decide, by decide⟩
    | cons f fs =>
      exact ⟨'\x7b', dumpFields f fs ++ ['\x7d'], by rw [dumpChars], by decide,
        by decide, by decide⟩

theorem dumpElems_shape (x : JVal) (xs : List JVal) :
    ∃ t, dumpElems x xs = dumpChars x ++ t := by
  cases xs with
  | nil => exact ⟨[], by rw [dumpElems, List.append_nil]⟩
  | cons y ys => exact ⟨',' :: dumpElems y ys, by rw [dumpElems]⟩

/-- The joint serialize-then-parse round-trip, proved by induction on the
parser fuel. -/
theorem parse_round_all (fuel : Nat) :
    (∀ v rest, noNums v = true → (dumpChars v).length ≤ fuel →
      parseVal fuel (dumpChars v ++ rest) = some (v, rest)) ∧
    (∀ x xs rest, noNums x = true → noNumsList xs = true →
      (dumpElems x xs).length < fuel →
      parseElems fuel (dumpElems x xs ++ ']' :: rest) = some (x :: xs, rest)) ∧
    (∀ k v fs rest, noNums v = true → noNumsFields fs = true →
      (dumpFields (k, v) fs).length < fuel →
      parseFields fuel (dumpFields (k, v) fs ++ '\x7d' :: rest) =
        some ((k, v) :: fs, rest)) := by
  induction fuel with
  | zero =>
    refine ⟨?_, ?_, ?_⟩
    · intro v rest hv hlen
      obtain ⟨c, t, hct, -, -, -⟩ := dump_head v hv
      rw [hct] at hlen
      simp at hlen
    · intro x xs rest _ _ hlen
      omega
    · intro k v fs rest _ _ hlen
      omega
  | succ f ih =>
    obtain ⟨ih1, ih2, ih3⟩ := ih
    refine ⟨?_, ?_, ?_⟩
    · -- parseVal round-trip
      intro v rest hv hlen
      cases v with
      | null => simp [dumpChars, parseVal, expectLit]
      | bool b =>
        cases b with
        | false => simp [dumpChars, parseVal, expectLit]
        | true => simp [dumpChars, parseVal, expectLit]
      | num n => simp [noNums] at hv
      | str s =>
        rw [dumpChars]
        have heq : ('"' :: (escChars s.data ++ ['"'])) ++ rest =
            '"' :: (escChars s.data ++ '"' :: rest) := by simp
        rw [heq, parseVal.eq_def]
        simp [parseStrAux_round, mk_data]
      | arr xs =>
        cases xs with
        | nil => simp [dumpChars, parseVal]
        | cons x xs =>
          have hx : noNums x = true ∧ noNumsList xs = true := by
            have := hv
            simp [noNums, noNumsList] at this
            exact this
          obtain ⟨t0, ht0⟩ := dumpElems_shape x xs
          obtain ⟨c, t, hct, hc1, -, -⟩ := dump_head x hx.1
          have hlen' : (dumpElems x xs).length < f := by
            rw [dumpChars] at hlen
            simp at hlen
            have : 1 ≤ (dumpElems x xs).length := by
              rw [ht0, hct]; simp
            omega
          have hne : dumpElems x xs = c :: (t ++ t0) := by
            rw [ht0, hct]
            simp
          rw [dumpChars]
          have heq : ('[' :: (dumpElems x xs ++ [']'])) ++ rest =
              '[' :: (dumpElems x xs ++ ']' :: rest) := by simp
          have hih : parseElems f (c :: (t ++ (t0 ++ ']' :: rest))) =
              some (x :: xs, rest) := by
            have h2 := ih2 x xs rest hx.1 hx.2 hlen'
            rw [hne] at h2
            simpa using h2
          rw [heq, parseVal.eq_def]
          simp [hne, hc1, hih]
      | obj fs =>
        cases fs with
        | nil => simp [dumpChars, parseVal]
        | cons g gs =>
          obtain ⟨k, v⟩ := g
          have hx : noNums v = true ∧ noNumsFields gs = true := by
            have := hv
            simp [noNums, noNumsFields] at this
            exact this
          have hfshape : ∃ t, dumpFields (k, v) gs = '"' :: t := by
            cases gs with
            | nil =>
              exact ⟨escChars k.data ++ '"' :: ':' :: dumpChars v,
                by rw [dumpFields, dumpField]⟩
            | cons g2 gs2 =>
              refine ⟨escChars k.data ++ '"' :: ':' :: dumpChars v ++
                ',' :: dumpFields g2 gs2, ?_⟩
              rw [dumpFields, dumpField]
              simp
          obtain ⟨t0, ht0⟩ := hfshape
          have hlen' : (dumpFields (k, v) gs).length < f := by
            rw [dumpChars] at hlen
            simp at hlen
            have : 1 ≤ (dumpFields (k, v) gs).length := by rw [ht0]; simp
            omega
          rw [dumpChars]
          have heq : ('\x7b' :: (dumpFields (k, v) gs ++ ['\x7d'])) ++ rest =
              '\x7b' :: (dumpFields (k, v) gs ++ '\x7d' :: rest) := by simp
          have hih : parseFields f ('"' :: (t0 ++ '\x7d' :: rest)) =
              some ((k, v) :: gs, rest) := by
            have h3 := ih3 k v gs rest hx.1 hx.2 hlen'
            rw [ht0] at h3
            simpa using h3
          rw [heq, parseVal.eq_def]
          simp [ht0, hih]
    · -- parseElems round-trip
      intro x xs rest hx hxs hlen
      cases xs with
      | nil =>
        rw [dumpElems] at hlen ⊢
        rw [parseElems.eq_def]
        simp [ih1 x (']' :: rest) hx (by omega : (dumpChars x).length ≤ f)]
      | cons y ys =>
        have hy : noNums y = true ∧ noNumsList ys = true := by
          simp [noNumsList] at hxs
          exact hxs
        obtain ⟨ty, hty⟩ := dumpElems_shape y ys
        obtain ⟨cy, t, hct, -, -, -⟩ := dump_head y hy.1
        have hsum : (dumpElems x (y :: ys)).length =
            (dumpChars x).length + 1 + (dumpElems y ys).length := by
          rw [dumpElems]
          simp
          omega
        have hylen : 1 ≤ (dumpElems y ys).length := by rw [hty, hct]; simp
        have hxlen : (dumpChars x).length ≤ f := by omega
        have hyslen : (dumpElems y ys).length < f := by
          have : 1 ≤ (dumpChars x).length := by
            obtain ⟨cx, tx, hcx, -, -, -⟩ := dump_head x hx
            rw [hcx]; simp
          omega
        rw [dumpElems]
        have heq : (dumpChars x ++ ',' :: dumpElems y ys) ++ ']' :: rest =
            dumpChars x ++ ',' :: (dumpElems y ys ++ ']' :: rest) := by simp
        rw [heq, parseElems.eq_def]
        simp [ih1 x (',' :: (dumpElems y ys ++ ']' :: rest)) hx hxlen,
          ih2 y ys rest hy.1 hy.2 hyslen]
    · -- parseFields round-trip
      intro k v fs rest hv hfs hlen
      cases fs with
      | nil =>
        rw [dumpFields, dumpField] at hlen ⊢
        have hvlen : (dumpChars v).length ≤ f := by
          simp at hlen
          omega
        have heq : ('"' :: (escChars k.data ++ '"' :: ':' :: dumpChars v)) ++
            '\x7d' :: rest =
            '"' :: (escChars k.data ++ '"' ::
              (':' :: (dumpChars v ++ '\x7d' :: rest))) := by simp
        rw [heq, parseFields.eq_def]
        simp [parseStrAux_round, ih1 v ('\x7d' :: rest) hv hvlen, mk_data]
      | cons g gs =>
        obtain ⟨k2, v2⟩ := g
        have hg : noNums v2 = true ∧ noNumsFields gs = true := by
          simp [noNumsFields] at hfs
          exact hfs
        have hlenf : (dumpFields (k, v) ((k2, v2) :: gs)).length =
            (dumpField (k, v)).length + 1 + (dumpFields (k2, v2) gs).length := by
          rw [dumpFields]
          simp
          omega
        have hfieldlen : (dumpField (k, v)).length =
            (escChars k.data).length + 3 + (dumpChars v).length := by
          rw [dumpField]
          simp
          omega
        have hgshape : ∃ t, dumpFields (k2, v2) gs = '"' :: t := by
          cases gs with
          | nil =>
            exact ⟨escChars k2.data ++ '"' :: ':' :: dumpChars v2,
              by rw [dumpFields, dumpField]⟩
          | cons g3 gs3 =>
            refine ⟨escChars k2.data ++ '"' :: ':' :: dumpChars v2 ++
              ',' :: dumpFields g3 gs3, ?_⟩
            rw [dumpFields, dumpField]
            simp
        obtain ⟨tg, htg⟩ := hgshape
        have hglen : 1 ≤ (dumpFields (k2, v2) gs).length := by rw [htg]; simp
        have hvlen : (dumpChars v).length ≤ f := by omega
        have hgslen : (dumpFields (k2, v2) gs).length < f := by omega
        rw [dumpFields, dumpField]
        have heq : (('"' :: (escChars k.data ++ '"' :: ':' :: dumpChars v)) ++
            ',' :: dumpFields (k2, v2) gs) ++ '\x7d' :: rest =
            '"' :: (escChars k.data ++ '"' :: (':' :: (dumpChars v ++
              ',' :: (dumpFields (k2, v2) gs ++ '\x7d' :: rest)))) := by simp
        rw [heq, parseFields.eq_def]
        simp [parseStrAux_round,
          ih1 v (',' :: (dumpFields (k2, v2) gs ++ '\x7d' :: rest)) hv hvlen,
          ih3 k2 v2 gs rest hg.1 hg.2 hgslen, mk_data]

/-- Model of `json.dumps(v, indent=2)` up to whitespace. -/
def json_dumps (v : JVal) : String :=
  String.mk (dumpChars v)

/-- Model of `json.loads`, total input consumption required. -/
def json_loads (s : String) : Option JVal :=
  match parseVal (s.data.length + 1) s.data with
  | some (v, []) => some v
  | _ => none

/-- `json.loads(json.dumps(v))` recovers `v` on the number-free fragment the
repository round-trips. -/
theorem json_loads_dumps (v : JVal) (h : noNums v = true) :
    json_loads (json_dumps v) = some v := by
  unfold json_dumps json_loads
  have hdata : (String.mk (dumpChars v)).data = dumpChars v := rfl
  rw [hdata]
  have hmain := (parse_round_all ((dumpChars v).length + 1)).1 v [] h (by omega)
  rw [List.append_nil] at hmain
  rw [hmain]

/-! ## Python string helpers

All helpers recurse structurally over `String.data` so that closed
theorems evaluate inside the kernel. -/

/-- Python's whitespace class for `strip`/`split`. -/
def pyWs (c : Char) : Bool :=
  c == ' ' || c == '\t' || c == '\n' || c == '\r' || c == '\x0b' || c == '\x0c'

/-- Python `str.strip()` (whitespace strip). -/
def pyStrip (s : String) : String :=
  String.mk (((s.data.dropWhile pyWs).reverse.dropWhile pyWs).reverse)

/-- Worker for `pySplit`. -/
def splitWsAux : List Char → List Char → List String
  | [], acc => if acc.isEmpty then [] else [String.mk acc.reverse]
  | c :: cs, acc =>
    if pyWs c then
      (if acc.isEmpty then [] else [String.mk acc.reverse]) ++ splitWsAux cs []
    else splitWsAux cs (c :: acc)

/-- Python `str.split()` with no argument: split on whitespace runs,
dropping empty fields. -/
def pySplit (s : String) : List String :=
  splitWsAux s.data []

/-- Worker for `pySplitChar`. -/
def splitCharAux (sep : Char) : List Char → List Char → List String
  | [], acc => [String.mk acc.reverse]
  | c :: cs, acc =>
    if c == sep then String.mk acc.reverse :: splitCharAux sep cs []
    else splitCharAux sep cs (c :: acc)

/-- Python `str.split(sep)` for a one-character separator (keeps empty
fields). -/
def pySplitChar (s : String) (sep : Char) : List String :=
  splitCharAux sep s.data []

/-- Whether `hay` begins with `needle`. -/
def isSubAt : List Char → List Char → Bool
  | [], _ => true
  | _ :: _, [] => false
  | a :: as, b :: bs => a == b && isSubAt as bs

/-- Worker for `pyContains`. -/
def containsAux (needle : List Char) : List Char → Bool
  | [] => isSubAt needle []
  | c :: cs => isSubAt needle (c :: cs) || containsAux needle cs

/-- Python `sub in s` for non-empty `sub`. -/
def pyContains (sub s : String) : Bool :=
  containsAux sub.data s.data

/-- Python `str.startswith`. -/
def pyStartsWith (s pre : String) : Bool :=
  isSubAt pre.data s.data

/-- Python `str.endswith`. -/
def pyEndsWith (s suf : String) : Bool :=
  isSubAt suf.data.reverse s.data.reverse

/-- Python `sep.join(parts)`. -/
def joinWith (sep : String) : List String → String
  | [] => ""
  | [x] => x
  | x :: xs => x ++ sep ++ joinWith sep xs

/-- One hexadecimal digit. -/
def hexDigit (c : Char) : Option Nat :=
  if '0' ≤ c ∧ c ≤ '9' then some (c.toNat - '0'.toNat)
  else if 'a' ≤ c ∧ c ≤ 'f' then some (c.toNat - 'a'.toNat + 10)
  else if 'A' ≤ c ∧ c ≤ 'F' then some (c.toNat - 'A'.toNat + 10)
  else none

/-- Accumulator loop for base-16 parsing. -/
def hexNatAux : List Char → Nat → Option Nat
  | [], acc => some acc
  | c :: cs, acc =>
    match hexDigit c with
    | none => none
    | some d => hexNatAux cs (acc * 16 + d)

/-- Python `int(s, 16)` on the non-negative digit-only strings the kernel
tables contain; `none` models the `ValueError` on empty/invalid input. -/
def pyIntHex (s : String) : Option Nat :=
  match s.data with
  | [] => none
  | cs => hexNatAux cs 0

/-- Python slice `s[i:i+n]` (clamping, never raising). -/
def pySlice (s : String) (i n : Nat) : String :=
  String.mk ((s.data.drop i).take n)

/-! ## Networking monitor (`networking_monitor.py`)

File contents and the other impure inputs are fields of `NetEnv`;
`Except String` models `open`/`readlines` raising (the carried string is
the stringified exception).  NOTE: `networking_monitor.py` never imports
`time`, although `call` uses `time.time()`; the loop model below records
the resulting `NameError` as an event. -/

/-- `{"timestamp": now, "data": {}, "message": msg}` — the error dict shape
every networking monitor returns from its `except` handler. -/
def msgDict (now msg : String) : JVal :=
  .obj [("timestamp", .str now), ("data", .obj []), ("message", .str msg)]

/-- One parsed socket record, as appended by `parse_proc_net`. -/
def sockJson (lip : String) (lport : Nat) (rip : String) (rport : Nat)
    (state inode : String) : JVal :=
  .obj [("local_ip", .str lip), ("local_port", .num lport),
        ("remote_ip", .str rip), ("remote_port", .num rport),
        ("state", .str state), ("inode", .str inode)]

/-- The `'.'.join(str(int(addr[i:i+2], 16)) for i in (6, 4, 2, 0))` decode
`parse_proc_net` applies to *every* address column, IPv4 and IPv6 alike
(`/proc/net/tcp6` rows get the same treatment, reading only the first four
bytes).  `none` models `int()` raising `ValueError`. -/
def decode_le_ip (addr : String) : Option String := do
  let b3 ← pyIntHex (pySlice addr 6 2)
  let b2 ← pyIntHex (pySlice addr 4 2)
  let b1 ← pyIntHex (pySlice addr 2 2)
  let b0 ← pyIntHex (pySlice addr 0 2)
  pure (toString b3 ++ "." ++ toString b2 ++ "." ++ toString b1 ++ "." ++
    toString b0)

/-- One line of the loop body of `parse_proc_net`: `ok none` is the
`len(cols) < 10` `continue`, `ok (some _)` a parsed socket, `error` an
exception aborting the whole parse (unpacking `cols[i].split(":")` into two
names, or `int(_, 16)`). -/
def parse_net_line (filename line : String) : Except String (Option JVal) :=
  let cols := pySplit (pyStrip line)
  if cols.length < 10 then .ok none
  else
    match pySplitChar (cols.getD 1 "") ':', pySplitChar (cols.getD 2 "") ':' with
    | [la, lp], [ra, rp] =>
      match decode_le_ip la, pyIntHex lp, decode_le_ip ra, pyIntHex rp with
      | some lip, some lport, some rip, some rport =>
        .ok (some (sockJson lip lport rip rport (cols.getD 3 "")
          (cols.getD 9 "")))
      | _, _, _, _ => .error ("Error parsing " ++ filename ++ ": ValueError")
    | _, _ => .error ("Error parsing " ++ filename ++ ": ValueError")

/-- The line loop of `parse_proc_net`: an exception discards all partial
results, as in the Python `try` that wraps the whole loop. -/
def netLinesGo (filename : String) : List String → Except String (List JVal)
  | [] => .ok []
  | line :: rest =>
    match parse_net_line filename line with
    | .error e => .error e
    | .ok none => netLinesGo filename rest
    | .ok (some s) => (netLinesGo filename rest).map (fun ss => s :: ss)

/-- `parse_proc_net`: drop the header line, parse the rest; the Python
`(sockets, "ok") / (None, msg)` pair is an `Except`. -/
def parse_proc_net (filename : String) (file : Except String (List String)) :
    Except String (List JVal) :=
  match file with
  | .error e => .error ("Error parsing " ++ filename ++ ": " ++ e)
  | .ok ls => netLinesGo filename (ls.drop 1)

/-- The shared body of `list_tcp6_sockets` / `list_udp6_sockets` /
`list_tcp_sockets` / `list_udp_sockets` (verbatim duplicates in the
source up to the protocol label, path and message). -/
def list_sockets_generic (protocol filename okMsg : String)
    (file : Except String (List String)) (now : String) : JVal :=
  match parse_proc_net filename file with
  | .error msg => msgDict now msg
  | .ok socks =>
    .obj [("timestamp", .str now),
          ("data", .obj [("protocol", .str protocol),
                         ("total", .num socks.length),
                         ("sockets", .arr socks)]),
          ("message", .str okMsg)]

/-- One entry of `os.listdir("/sys/class/net/")` with the statistics
values that survive the inner `try` (an `rx_bytes` read failure leaves
both `None`; a `tx_bytes` failure can leave `rx` assigned). -/
structure IfaceEntry where
  name : String
  isDir : Bool
  rx : Option Int
  tx : Option Int

/-- `Option Int` to JSON (`None` ↦ `null`). -/
def optNum : Option Int → JVal
  | none => .null
  | some n => .num n

/-- `Option String` to JSON (`None` ↦ `null`). -/
def optStr : Option String → JVal
  | none => .null
  | some s => .str s

/-- `list_network_interfaces`. -/
def list_network_interfaces (entries : Except String (List IfaceEntry))
    (now : String) : JVal :=
  match entries with
  | .error e => msgDict now ("Error reading /sys/class/net: " ++ e)
  | .ok es =>
    let ifaces := (es.filter (·.isDir)).map (fun e =>
      JVal.obj [("name", .str e.name), ("rx_bytes", optNum e.rx),
                ("tx_bytes", optNum e.tx)])
    .obj [("timestamp", .str now),
          ("data", .obj [("total_interfaces", .num ifaces.length),
                         ("interfaces", .arr ifaces)]),
          ("message", .str "Network interfaces listed successfully.")]

/-- One iptables rule as read from `python-iptc`. -/
structure RuleData where
  src : String
  dst : String
  protocol : String
  in_interface : String
  out_interface : String
  target : Option String
  match_list : List String  -- `matches` is reserved in Lean; JSON key stays "matches"

/-- One iptables chain. -/
structure ChainData where
  name : String
  policy : Option String
  rules : List RuleData

/-- JSON for one rule, as built in `list_iptables_filter_table`. -/
def ruleJson (r : RuleData) : JVal :=
  .obj [("src", .str r.src), ("dst", .str r.dst),
        ("protocol", .str r.protocol),
        ("in_interface", .str r.in_interface),
        ("out_interface", .str r.out_interface),
        ("target", optStr r.target),
        ("matches", .arr (r.match_list.map JVal.str))]

/-- JSON for one chain. -/
def chainJson (c : ChainData) : JVal :=
  .obj [("name", .str c.name), ("policy", optStr c.policy),
        ("rules", .arr (c.rules.map ruleJson))]

/-- The `result` dict of `list_iptables_filter_table` before
`json.dumps`; an `iptc` exception is modelled at `table.refresh()`, before
any chain is appended, leaving `data.chains` empty and an `Error:` message. -/
def iptables_result (now : String)
    (chains : Except String (List ChainData)) : JVal :=
  match chains with
  | .ok cs =>
    .obj [("timestamp", .str now),
          ("data", .obj [("chains", .arr (cs.map chainJson))]),
          ("message",
           .str "Filter table iptables rules retrieved successfully.")]
  | .error e =>
    .obj [("timestamp", .str now),
          ("data", .obj [("chains", .arr [])]),
          ("message", .str ("Error: " ++ e))]

/-- `list_iptables_filter_table`: a dict (`inl`) on the non-root path,
a `json.dumps` string (`inr`) on every other path — success and internal
iptables error alike. -/
def list_iptables_filter_table (euid : Nat)
    (chains : Except String (List ChainData)) (now : String) : JVal ⊕ String :=
  if euid ≠ 0 then
    .inl (msgDict now "Error: This function requires root privileges.")
  else
    .inr (json_dumps (iptables_result now chains))

/-- One line of `list_unix_sockets`; `error` models the `IndexError` on a
line with fewer than six fields, which aborts the whole listing into the
`except` handler. -/
def unix_sock_line (line : String) : Except Unit JVal :=
  let fields := pySplit (pyStrip line)
  if fields.length < 6 then .error ()
  else
    let path := if fields.length > 6 then some (fields.getD 6 "") else none
    .ok (.obj [("num", .str (fields.getD 0 "")),
               ("ref_count", .str (fields.getD 1 "")),
               ("protocol", .str (fields.getD 2 "")),
               ("flags", .str (fields.getD 3 "")),
               ("type", .str (fields.getD 4 "")),
               ("state", .str (fields.getD 5 "")),
               ("path", optStr path)])

/-- One line of `list_arp_table`; `error` models the `IndexError` on a
short line. -/
def arp_line (line : String) : Except Unit JVal :=
  let fields := pySplit (pyStrip line)
  if fields.length < 6 then .error ()
  else
    .ok (.obj [("ip_address", .str (fields.getD 0 "")),
               ("hw_type", .str (fields.getD 1 "")),
               ("flags", .str (fields.getD 2 "")),
               ("mac_address", .str (fields.getD 3 "")),
               ("mask", .str (fields.getD 4 "")),
               ("device", .str (fields.getD 5 ""))])

/-- Per-line loop aborting on the first exception. -/
def collectLines (f : String → Except Unit JVal) :
    List String → Except Unit (List JVal)
  | [] => .ok []
  | l :: ls =>
    match f l with
    | .error e => .error e
    | .ok v => (collectLines f ls).map (fun vs => v :: vs)

/-- `list_unix_sockets`. -/
def list_unix_sockets (file : Except String (List String)) (now : String) :
    JVal :=
  match file with
  | .error e => msgDict now ("Error reading /proc/net/unix: " ++ e)
  | .ok ls =>
    match collectLines unix_sock_line (ls.drop 1) with
    | .error _ =>
      msgDict now "Error reading /proc/net/unix: list index out of range"
    | .ok socks =>
      .obj [("timestamp", .str now),
            ("data", .obj [("total", .num socks.length),
                           ("sockets", .arr socks)]),
            ("message", .str "Unix sockets listed successfully.")]

/-- `list_arp_table`. -/
def list_arp_table (file : Except String (List String)) (now : String) :
    JVal :=
  match file with
  | .error e => msgDict now ("Error reading /proc/net/arp: " ++ e)
  | .ok ls =>
    match collectLines arp_line (ls.drop 1) with
    | .error _ =>
      msgDict now "Error reading /proc/net/arp: list index out of range"
    | .ok entries =>
      .obj [("timestamp", .str now),
            ("data", .obj [("total", .num entries.length),
                           ("arp_entries", .arr entries)]),
            ("message", .str "ARP table entries listed successfully.")]

/-- The impure inputs of one networking-monitor iteration. -/
structure NetEnv where
  tcp6 : Except String (List String)
  udp6 : Except String (List String)
  tcp : Except String (List String)
  udp : Except String (List String)
  ifaces : Except String (List IfaceEntry)
  euid : Nat
  chains : Except String (List ChainData)
  unixFile : Except String (List String)
  arpFile : Except String (List String)

/-- `list_tcp6_sockets`. -/
def list_tcp6_sockets (env : NetEnv) (now : String) : JVal :=
  list_sockets_generic "tcp6" "/proc/net/tcp6"
    "TCP6 sockets listed successfully." env.tcp6 now

/-- `list_udp6_sockets`. -/
def list_udp6_sockets (env : NetEnv) (now : String) : JVal :=
  list_sockets_generic "udp6" "/proc/net/udp6"
    "UDP6 sockets listed successfully." env.udp6 now

/-- `list_tcp_sockets`. -/
def list_tcp_sockets (env : NetEnv) (now : String) : JVal :=
  list_sockets_generic "tcp" "/proc/net/tcp"
    "TCP sockets listed successfully." env.tcp now

/-- `list_udp_sockets`. -/
def list_udp_sockets (env : NetEnv) (now : String) : JVal :=
  list_sockets_generic "udp" "/proc/net/udp"
    "UDP sockets listed successfully." env.udp now

/-- The `monitors` dict of one networking loop iteration, in insertion
order; `list_iptables_filter_table` alone may contribute a string. -/
def net_monitor_results (env : NetEnv) (now : String) :
    List (String × (JVal ⊕ String)) :=
  [("list_tcp6_sockets", .inl (list_tcp6_sockets env now)),
   ("list_udp6_sockets", .inl (list_udp6_sockets env now)),
   ("list_tcp_sockets", .inl (list_tcp_sockets env now)),
   ("list_udp_sockets", .inl (list_udp_sockets env now)),
   ("list_network_interfaces", .inl (list_network_interfaces env.ifaces now)),
   ("list_iptables_filter_table",
    list_iptables_filter_table env.euid env.chains now),
   ("list_unix_sockets", .inl (list_unix_sockets env.unixFile now)),
   ("list_arp_table", .inl (list_arp_table env.arpFile now))]

/-- The write step of the networking loop:
`if isinstance(result, str): result = json.loads(result)` then
`json.dump(result, f)`.  `none` models `json.loads` raising, in which case
the `except` handler prints and no file is written. -/
def net_written_value : JVal ⊕ String → Option JVal
  | .inl v => some v
  | .inr s => json_loads s

/-- The values the networking loop's write step persists, one per monitor. -/
def net_written_values (env : NetEnv) (now : String) :
    List (String × Option JVal) :=
  (net_monitor_results env now).map (fun p => (p.1, net_written_value p.2))

/-! ## Kallsyms monitor (`kallsyms_monitor.py`)

A compiled `re` pattern is modelled by its `search` predicate
`String → Bool`; `_compile_regex` outcomes by `RegexArg`. -/

/-- Python `s.strip("[]")`: strip any run of `[` / `]` from both ends. -/
def pyStripBrackets (s : String) : String :=
  String.mk
    ((((s.data.dropWhile (fun c => c = '[' ∨ c = ']')).reverse.dropWhile
      (fun c => c = '[' ∨ c = ']')).reverse))

/-- One parsed kallsyms record. -/
structure KRec where
  addr : String
  sym_type : String
  name : String
  module : Option String

/-- `_parse_kallsyms_line`. -/
def _parse_kallsyms_line (line : String) : Option KRec :=
  let line := pyStrip line
  if line = "" then none
  else
    let parts := pySplit line
    if parts.length < 3 then none
    else
      let addr := parts.getD 0 ""
      let sym_type := parts.getD 1 ""
      let lastp := parts.getD (parts.length - 1) ""
      if pyStartsWith lastp "[" ∧ pyEndsWith lastp "]" then
        let module := pyStripBrackets lastp
        let name :=
          if parts.length > 3 then
            joinWith " " ((parts.drop 2).take (parts.length - 3))
          else parts.getD 2 ""
        some ⟨addr, sym_type, name, some module⟩
      else
        some ⟨addr, sym_type, joinWith " " (parts.drop 2), none⟩

/-- The outcome of `_compile_regex` on one pattern argument. -/
inductive RegexArg where
  | absent : RegexArg
  | valid (pattern : String) (search : String → Bool) : RegexArg
  | invalid (pattern : String) (err : String) : RegexArg

/-- Compiled predicate, when the pattern compiled. -/
def regexPred : RegexArg → Option (String → Bool)
  | .absent => none
  | .valid _ p => some p
  | .invalid _ _ => none

/-- The textual pattern (for the `filters` echo in the data). -/
def regexPattern : RegexArg → Option String
  | .absent => none
  | .valid p _ => some p
  | .invalid p _ => some p

/-- The `_compile_regex` error message, when compilation failed. -/
def regexErr : RegexArg → Option String
  | .invalid _ e => some e
  | _ => none

/-- The filter application of the snapshot loop: `name_re.search(name or "")`
and `mod_re.search(module if module is not None else "")`. -/
def kallsymsPasses (nameF modF : Option (String → Bool)) (rec : KRec) : Bool :=
  (match nameF with | none => true | some p => p rec.name) &&
  (match modF with | none => true | some p => p (rec.module.getD ""))

/-- `len(symbols) >= max_symbols` — the Python comparison of a `len` with a
possibly negative cap. -/
def capReached (cap : Option Int) (n : Nat) : Bool :=
  match cap with
  | none => false
  | some m => (n : Int) ≥ m

/-- The count-and-cap loop over the kallsyms lines, accumulator-style, as in
the source: `total_after_filter` counts every filtered record, `symbols`
stops growing once the cap is reached. -/
def scanGo (passes : KRec → Bool) (cap : Option Int) :
    List String → Nat → List KRec → Nat × List KRec
  | [], total, syms => (total, syms)
  | l :: ls, total, syms =>
    match _parse_kallsyms_line l with
    | none => scanGo passes cap ls total syms
    | some rec =>
      if passes rec then
        if capReached cap syms.length then scanGo passes cap ls (total + 1) syms
        else scanGo passes cap ls (total + 1) (syms ++ [rec])
      else scanGo passes cap ls total syms

/-- JSON for one symbol record. -/
def symJson (r : KRec) : JVal :=
  .obj [("addr", .str r.addr), ("type", .str r.sym_type),
        ("name", .str r.name), ("module", optStr r.module)]

/-- The `data` dict of a kallsyms SUCCESS response. -/
def kallsymsData (total : Nat) (syms : List KRec)
    (filter_regex module_regex : Option String) (max_symbols : Option Int)
    (kptr : Option Int) : JVal :=
  .obj [("total_symbols", .num total),
        ("returned_symbols", .num syms.length),
        ("kptr_restrict", optNum kptr),
        ("filters", .obj [("name_regex", .str (filter_regex.getD "")),
                          ("module_regex", .str (module_regex.getD "")),
                          ("max_symbols", optNum max_symbols)]),
        ("symbols", .arr (syms.map symJson))]

/-- Impure inputs of one kallsyms snapshot. -/
structure KallsymsEnv where
  kptr : Option Int
  kallsymsExists : Bool
  kallsymsFile : Except String (List String)

/-- `snapshot_kallsyms`. -/
def snapshot_kallsyms (env : KallsymsEnv) (now : String)
    (nameArg modArg : RegexArg) (max_symbols : Option Int) : JVal :=
  match regexErr nameArg with
  | some e =>
    make_error_response now "STATE" (some "KALLSYMS_SNAPSHOT")
      INVALID_ARGUMENTS e
  | none =>
    match regexErr modArg with
    | some e =>
      make_error_response now "STATE" (some "KALLSYMS_SNAPSHOT")
        INVALID_ARGUMENTS e
    | none =>
      if ¬ env.kallsymsExists then
        make_error_response now "STATE" (some "KALLSYMS_SNAPSHOT") IO_FAILURE
          "/proc/kallsyms not found. This kernel/distro may not expose kallsyms."
      else
        match env.kallsymsFile with
        | .error e =>
          make_error_response now "STATE" (some "KALLSYMS_SNAPSHOT")
            EXECUTION_FAILURE ("Error reading /proc/kallsyms: " ++ e)
        | .ok lines =>
          let scanned := scanGo
            (kallsymsPasses (regexPred nameArg) (regexPred modArg))
            max_symbols lines 0 []
          make_success_response now "STATE" (some "KALLSYMS_SNAPSHOT")
            (kallsymsData scanned.1 scanned.2 (regexPattern nameArg)
              (regexPattern modArg) max_symbols env.kptr)

/-- The post-filter match list of a line set. -/
def kallsymsMatched (passes : KRec → Bool) (lines : List String) : List KRec :=
  (lines.filterMap _parse_kallsyms_line).filter passes

/-- The capped return list: `take` of the match list. -/
def capTakeList (cap : Option Int) (m : List KRec) : List KRec :=
  match cap with
  | none => m
  | some c => m.take c.toNat

theorem capReached_iff (c : Int) (n : Nat) :
    capReached (some c) n = true ↔ c.toNat ≤ n := by
  simp [capReached]
  try omega

theorem scanGo_spec_some (passes : KRec → Bool) (c : Int) (ls : List String) :
    ∀ t s, scanGo passes (some c) ls t s =
      (t + (kallsymsMatched passes ls).length,
       s ++ (kallsymsMatched passes ls).take (c.toNat - s.length)) := by
  induction ls with
  | nil => intro t s; simp [scanGo, kallsymsMatched]
  | cons l ls ih =>
    intro t s
    rw [scanGo]
    cases hp : _parse_kallsyms_line l with
    | none =>
      rw [ih t s]
      simp [kallsymsMatched, List.filterMap_cons, hp]
    | some rec =>
      by_cases hpass : passes rec = true
      · have hm : kallsymsMatched passes (l :: ls) =
            rec :: kallsymsMatched passes ls := by
          simp [kallsymsMatched, List.filterMap_cons, hp, hpass]
        by_cases hcap : capReached (some c) s.length = true
        · have hle : c.toNat ≤ s.length := (capReached_iff c s.length).mp hcap
          have h0 : c.toNat - s.length = 0 := by omega
          simp only [hpass, hcap, if_true, ite_true]
          rw [ih (t + 1) s, hm]
          simp [h0]
          omega
        · have hlt : s.length < c.toNat := by
            rcases Nat.lt_or_ge s.length c.toNat with h | h
            · exact h
            · exact absurd ((capReached_iff c s.length).mpr h) hcap
          have hsub : c.toNat - s.length = (c.toNat - (s.length + 1)) + 1 := by
            omega
          simp only [hpass, hcap, if_true, ite_true, if_false, ite_false]
          rw [ih (t + 1) (s ++ [rec]), hm]
          simp [hsub, List.take_succ_cons]
          omega
      · have hm : kallsymsMatched passes (l :: ls) =
            kallsymsMatched passes ls := by
          simp [kallsymsMatched, List.filterMap_cons, hp, hpass]
        simp only [hpass, if_false, ite_false, Bool.false_eq_true]
        rw [ih t s, hm]

theorem scanGo_spec_none (passes : KRec → Bool) (ls : List String) :
    ∀ t s, scanGo passes none ls t s =
      (t + (kallsymsMatched passes ls).length,
       s ++ kallsymsMatched passes ls) := by
  induction ls with
  | nil => intro t s; simp [scanGo, kallsymsMatched]
  | cons l ls ih =>
    intro t s
    rw [scanGo]
    cases hp : _parse_kallsyms_line l with
    | none =>
      rw [ih t s]
      simp [kallsymsMatched, List.filterMap_cons, hp]
    | some rec =>
      by_cases hpass : passes rec = true
      · have hm : kallsymsMatched passes (l :: ls) =
            rec :: kallsymsMatched passes ls := by
          simp [kallsymsMatched, List.filterMap_cons, hp, hpass]
        have hcap : capReached none s.length = false := by simp [capReached]
        simp only [hpass, hcap, if_true, ite_true, if_false, ite_false,
          Bool.false_eq_true]
        rw [ih (t + 1) (s ++ [rec]), hm]
        simp
        omega
      · have hm : kallsymsMatched passes (l :: ls) =
            kallsymsMatched passes ls := by
          simp [kallsymsMatched, List.filterMap_cons, hp, hpass]
        simp only [hpass, if_false, ite_false, Bool.false_eq_true]
        rw [ih t s, hm]

/-- The scan loop produces the uncapped match count and the capped list. -/
theorem scanGo_spec (passes : KRec → Bool) (cap : Option Int)
    (ls : List String) :
    scanGo passes cap ls 0 [] =
      ((kallsymsMatched passes ls).length,
       capTakeList cap (kallsymsMatched passes ls)) := by
  cases cap with
  | none =>
    rw [scanGo_spec_none passes ls 0 []]
    simp [capTakeList]
  | some c =>
    rw [scanGo_spec_some passes c ls 0 []]
    simp [capTakeList]

/-! ## io_uring monitor (`io_uring_monitor.py`) -/

/-- The names bound at module level of `io_uring_monitor.py`: its four
imports (`json`, `os`, `time`, `datetime`), the five ftrace path constants
and the three functions.  `select` is **not** among them, although
`monitor_io_uring` calls `select.select`. -/
def io_uring_module_globals : List String :=
  ["json", "os", "time", "datetime", "FTRACE_PATH", "FTRACE_PIPE",
   "FTRACE_FILTER", "FTRACE_TRACER", "FTRACE_ON", "call",
   "setup_ftrace_io_uring", "monitor_io_uring"]

/-- Python global-name resolution inside `io_uring_monitor.py`:
`NameError` when the name is unbound. -/
def resolveGlobal (n : String) : Except String Unit :=
  if n ∈ io_uring_module_globals then .ok ()
  else .error ("name \x27" ++ n ++ "\x27 is not defined")

/-- Impure inputs of `setup_ftrace_io_uring` / `monitor_io_uring`.  File
writes are modelled as succeeding (a write failure would only feed the same
configure-failure handler the read errors exercise). -/
structure IoUringEnv where
  pipeExists : Bool
  availFilterFuncs : Except String String
  filterFileExists : Bool
  filterFile : Except String String
  availTracers : Except String String
  pipeLines : List String

/-- `setup_ftrace_io_uring`: the checks that decide success or the raised
`RuntimeError` / `OSError`. -/
def setup_ftrace_io_uring (env : IoUringEnv) : Except String Unit :=
  match env.availFilterFuncs with
  | .error e => .error e
  | .ok content =>
    let cands := (pySplitChar content '\n').filter (fun l => pyContains "io_uring" l)
    match cands.mapM (fun l => (pySplit (pyStrip l)).head?) with
    | none => .error "list index out of range"
    | some availables =>
      if availables.isEmpty then .error "No io_uring-related functions found."
      else
        match (if env.filterFileExists then env.filterFile.map some
               else .ok none) with
        | .error e => .error e
        | .ok _ =>
          match env.availTracers with
          | .error e => .error e
          | .ok avail =>
            if pyContains "function" avail then .ok ()
            else .error "\"function\" tracer not available on this kernel."

/-- `monitor_io_uring`.  The event collection is
`while len(events) < max_events:` with `events` starting empty, so its body
runs at all only when `max_events > 0`; the body's first expression then
evaluates the global name `select`, which `io_uring_monitor.py` never
imports, and the `NameError` lands in the outer `except` handler.  With
`max_events = 0` the guard is false at once, `select` is never evaluated,
and the zero-events success dict is returned.  The (then unreachable)
collection itself is modelled as taking up to `max_events` lines from the
pipe. -/
def monitor_io_uring (env : IoUringEnv) (now : String) (max_events : Nat) :
    JVal :=
  if ¬ env.pipeExists then
    msgDict now
      ("ftrace trace_pipe not found. Root privileges and a mounted debugfs " ++
       "are required for kernel-level io_uring event monitoring.")
  else
    match setup_ftrace_io_uring env with
    | .error e =>
      msgDict now ("Failed to configure ftrace for io_uring monitoring: " ++ e)
    | .ok _ =>
      match (if 0 < max_events then
               (resolveGlobal "select").map
                 (fun _ => env.pipeLines.take max_events)
             else .ok []) with
      | .error e =>
        msgDict now ("Error during io_uring ftrace monitoring: " ++ e)
      | .ok events =>
        .obj [("timestamp", .str now),
              ("data", .obj [("total_events", .num events.length),
                             ("events", .arr (events.map JVal.str))]),
              ("message", .str
                (if events.isEmpty then
                  "No io_uring events detected in ftrace output."
                 else
                  "io_uring events monitored successfully via ftrace. " ++
                  toString events.length ++ " events collected."))]

/-- The value one io_uring loop iteration writes: `monitor_io_uring`'s
return (the loop's own `except` fallback is unreachable, the model being
total). -/
def io_uring_written_value (env : IoUringEnv) (now : String)
    (max_events : Nat) : JVal :=
  monitor_io_uring env now max_events

/-! ## eBPF monitor (`ebpf_monitor.py`) -/

/-- One bpftool JSON program entry (bpftool emits integer ids and string
type/name/attach_type fields; a missing key defaults to `"unknown"` via
`prog.get`). -/
structure BpfProg where
  id : Option Int
  ptype : Option String
  name : Option String
  attach_type : Option String

/-- Outcome of `subprocess.check_output(["bpftool", "-j", "prog", "list"])`
plus `json.loads`: parsed program list, `FileNotFoundError`,
`CalledProcessError`, or any other exception. -/
inductive BpftoolOutcome where
  | ok (progs : List BpfProg) : BpftoolOutcome
  | notFound : BpftoolOutcome
  | calledProcessError (returncode : Int) (output : String) : BpftoolOutcome
  | otherError (msg : String) : BpftoolOutcome

/-- `from bcc import BPF` plus `BPF.get_kprobe_functions` outcome. -/
inductive BccOutcome where
  | available (kprobes : List String) : BccOutcome
  | importError : BccOutcome
  | runtimeError (msg : String) : BccOutcome

/-- Impure inputs of `monitor_loaded_ebpf`. -/
structure EbpfEnv where
  bpftool : BpftoolOutcome
  bcc : BccOutcome

/-- A string field with the `"unknown"` default of `prog.get`. -/
def unknownDefault : Option String → JVal
  | none => .str "unknown"
  | some s => .str s

/-- The id field, integer or defaulted. -/
def idJson : Option Int → JVal
  | none => .str "unknown"
  | some n => .num n

/-- One `loaded_programs` entry on the bpftool path. -/
def progEntry (p : BpfProg) : JVal :=
  .obj [("id", idJson p.id), ("type", unknownDefault p.ptype),
        ("name", unknownDefault p.name),
        ("attach_type", unknownDefault p.attach_type)]

/-- `data["attachment_points"]` update for one program: ensure the key
exists, append the id when it is an integer (string ids other than
`"unknown"` would also be appended; bpftool ids are integers). -/
def updateAttach (acc : List (String × List JVal)) (k : String)
    (idv : Option JVal) : List (String × List JVal) :=
  let acc := if (acc.lookup k).isSome then acc else acc ++ [(k, [])]
  match idv with
  | none => acc
  | some j => acc.map (fun p => if p.1 = k then (p.1, p.2 ++ [j]) else p)

/-- The `data` dict built on the bpftool success path. -/
def bpftoolData (progs : List BpfProg) : JVal :=
  let loaded := progs.map progEntry
  let attach := progs.foldl
    (fun acc p =>
      updateAttach acc (p.attach_type.getD "unknown") (p.id.map JVal.num)) []
  .obj [("loaded_programs", .arr loaded),
        ("attachment_points", .obj (attach.map (fun q => (q.1, JVal.arr q.2))))]

/-- The BCC branch of `monitor_loaded_ebpf` (fallback or explicit). -/
def ebpf_bcc_branch (env : EbpfEnv) (now : String) : JVal :=
  match env.bcc with
  | .importError =>
    make_error_response now "STATE" (some "EBPF_ENUMERATION")
      TOOL_NOT_AVAILABLE
      "Neither bpftool nor BCC is available for eBPF enumeration."
  | .runtimeError m =>
    make_error_response now "STATE" (some "EBPF_ENUMERATION")
      EXECUTION_FAILURE ("Error enumerating eBPF programs via BCC: " ++ m)
  | .available kprobes =>
    let loaded := kprobes.map (fun fn =>
      JVal.obj [("type", .str "kprobe"), ("name", .str fn),
                ("id", .str "unknown"), ("attach_type", .str "kprobe")])
    let attach :=
      if kprobes.isEmpty then JVal.obj []
      else JVal.obj [("kprobe", .arr (kprobes.map JVal.str))]
    make_success_response now "STATE" (some "EBPF_ENUMERATION")
      (.obj [("loaded_programs", .arr loaded), ("attachment_points", attach)])

/-- `monitor_loaded_ebpf`. -/
def monitor_loaded_ebpf (env : EbpfEnv) (now : String) (bcc_enabled : Bool) :
    JVal :=
  if ¬ bcc_enabled then
    match env.bpftool with
    | .ok progs =>
      make_success_response now "STATE" (some "EBPF_ENUMERATION")
        (bpftoolData progs)
    | .calledProcessError rc out =>
      make_error_response now "STATE" (some "EBPF_ENUMERATION")
        EXECUTION_FAILURE
        ("bpftool failed with exit code " ++ toString rc ++ ": " ++ out)
    | .otherError m =>
      make_error_response now "STATE" (some "EBPF_ENUMERATION")
        EXECUTION_FAILURE
        ("Error enumerating eBPF programs via bpftool: " ++ m)
    | .notFound => ebpf_bcc_branch env now
  else ebpf_bcc_branch env now

/-! ## Process monitor (`process_monitor.py`) -/

/-- One decimal digit. -/
def decDigit (c : Char) : Option Nat :=
  if '0' ≤ c ∧ c ≤ '9' then some (c.toNat - '0'.toNat) else none

/-- Accumulator loop for base-10 parsing. -/
def decNatAux : List Char → Nat → Option Nat
  | [], acc => some acc
  | c :: cs, acc =>
    match decDigit c with
    | none => none
    | some d => decNatAux cs (acc * 10 + d)

/-- Python `int(s)` on the non-negative digit strings `/proc` stat fields
contain; `none` models `ValueError`. -/
def pyIntDec (s : String) : Option Int :=
  match s.data with
  | [] => none
  | cs => (decNatAux cs 0).map Int.ofNat

/-- Python `str.isdigit()` on ASCII. -/
def pyIsDigit (s : String) : Bool :=
  s ≠ "" && s.data.all (fun c => decide ('0' ≤ c) && decide (c ≤ '9'))

/-- Index of the last occurrence of `c` (Python `str.rfind`, `none` for
`-1`). -/
def rfindIdx (cs : List Char) (c : Char) : Option Nat :=
  ((cs.enum.filter (fun p => p.2 = c)).getLast?).map Prod.fst

/-- The substring from index `i` on: Python `s[i:]`. -/
def strFrom (s : String) (i : Nat) : String :=
  String.mk (s.data.drop i)

/-- The no-parenthesis fallback branch of the stat parse. -/
def parse_stat_fallback (raw : String) : Option (String × String × Option Int) :=
  let parts := pySplit raw
  let state := parts.getD 2 "?"
  if parts.length > 23 then
    match pyIntDec (parts.getD 23 "") with
    | none => none
    | some rss => some ("<unknown>", state, some rss)
  else some ("<unknown>", state, none)

/-- The stat-line parse of `monitor_process` / `monitor_threads`:
`(name, state, rss_pages)`; `none` models an exception (a non-integer
`rest[23]`), which skips the entry.  Note the source takes
`lpar = raw.rfind("(")` — the *last* opening parenthesis — and builds
`rest` without the comm token, reading `rest[2]` and `rest[23]`. -/
def parse_stat (raw0 : String) : Option (String × String × Option Int) :=
  let raw := pyStrip raw0
  match rfindIdx raw.data '(', rfindIdx raw.data ')' with
  | some lp, some rp =>
    if rp < lp then parse_stat_fallback raw
    else
      let name := pySlice raw (lp + 1) (rp - lp - 1)
      let rest := pySplit (pySlice raw 0 lp) ++ pySplit (strFrom raw (rp + 1))
      let state := rest.getD 2 "?"
      if rest.length > 23 then
        match pyIntDec (rest.getD 23 "") with
        | none => none
        | some rss => some (name, state, some rss)
      else some (name, state, none)
  | _, _ => parse_stat_fallback raw

/-- One `/proc` directory entry with its stat read outcome (`error` models
the process disappearing mid-read or permission denial). -/
structure ProcEntry where
  name : String
  stat : Except Unit String

/-- Impure inputs of `monitor_process`. -/
structure ProcEnv where
  entries : List ProcEntry
  page_size : Int

/-- One process record of the SUCCESS data. -/
def procRecJson (pid : Int) (name state : String) (rss : Option Int)
    (pageSz : Int) : JVal :=
  .obj [("pid", .num pid), ("name", .str name), ("state", .str state),
        ("rss_pages", optNum rss),
        ("rss_bytes", optNum (rss.map (· * pageSz)))]

/-- The per-entry body of `monitor_process`: numeric entries only; any
exception (read failure, malformed integer) skips the entry. -/
def procEntryRec (pageSz : Int) (e : ProcEntry) : Option JVal :=
  if pyIsDigit e.name then
    match e.stat with
    | .error _ => none
    | .ok raw =>
      match parse_stat raw with
      | none => none
      | some (nm, st, rss) =>
        (pyIntDec e.name).map (fun pid => procRecJson pid nm st rss pageSz)
  else none

/-- `monitor_process`. -/
def monitor_process (env : ProcEnv) (now : String) : JVal :=
  let procs := env.entries.filterMap (procEntryRec env.page_size)
  make_success_response now "STATE" (some "PROCESSES")
    (.obj [("count", .num procs.length),
           ("page_size", .num env.page_size),
           ("processes", .arr procs)])

/-! ## The spec's IPv6 decode (absent from the source)

`Modelled from the spec:` the source contains no IPv6 decoding at all —
`parse_proc_net` applies the 4-byte dotted-quad decode to `/proc/net/tcp6`
rows too.  The following definitions transcribe the spec's words ("4 32-bit
little-endian chunks, each chunk's bytes reversed, concatenated to 16
bytes, then formatted with zero-run compression (longest run of all-zero
16-bit groups collapsed to `::`; ties broken by leftmost run)") so the
expected values can be computed and compared with what the code produces. -/

/-- Two hex chars at offset `i` as one byte. -/
def hexPairAt (cs : List Char) (i : Nat) : Option Nat := do
  let h ← hexDigit (← (cs.drop i).head?)
  let l ← hexDigit (← ((cs.drop i).drop 1).head?)
  pure (h * 16 + l)

/-- The sixteen bytes of a kernel-format IPv6 address: four 8-hex-char
chunks, each chunk's four bytes reversed. -/
def specIpv6Bytes (addr : String) : Option (List Nat) :=
  let cs := addr.data
  if cs.length = 32 then
    ((List.range 4).mapM (fun k =>
      (List.range 4).mapM (fun j => hexPairAt cs (k * 8 + (3 - j) * 2)))).map
      List.flatten
  else none

/-- Lowercase hex of one 16-bit group, no leading zeros. -/
def groupHex (n : Nat) : String :=
  String.mk (Nat.toDigits 16 n)

/-- Length of the all-zero run starting at position `i`. -/
def zeroRunAt (gs : List Nat) (i : Nat) : Nat :=
  ((gs.drop i).takeWhile (fun g => g = 0)).length

/-- Longest all-zero run `(start, length)`, leftmost on ties; `none` when no
group is zero. -/
def bestZeroRun (gs : List Nat) : Option (Nat × Nat) :=
  let cands := (List.range gs.length).map (fun i => (i, zeroRunAt gs i))
  cands.foldl
    (fun best c =>
      if c.2 = 0 then best
      else match best with
        | none => some c
        | some b => if c.2 > b.2 then some c else some b)
    none

/-- `Modelled from the spec:` the zero-run-compressed textual form of a
kernel hex IPv6 address. -/
def specDecodeIpv6 (addr : String) : Option String :=
  (specIpv6Bytes addr).map (fun bytes =>
    let gs := (List.range 8).map (fun i =>
      bytes.getD (2 * i) 0 * 256 + bytes.getD (2 * i + 1) 0)
    match bestZeroRun gs with
    | none => joinWith ":" (gs.map groupHex)
    | some (st, len) =>
      joinWith ":" ((gs.take st).map groupHex) ++ "::" ++
        joinWith ":" ((gs.drop (st + len)).map groupHex))

/-! ## The pre-loop phase of each monitor family's `call`

`LoopEvent` traces record, in order: directory creations, a raised
`ValueError` carrying an envelope (the fail-fast validation), a
`ZeroDivisionError` from `duration // frequency`, and the `NameError` the
networking loop hits on the unimported `time`. -/

/-- Events of a `call`'s pre-loop phase. -/
inductive LoopEvent where
  | mkdirEvent (path : String) : LoopEvent
  | raisedInvalidArgs (resp : JVal) : LoopEvent
  | zeroDivisionError : LoopEvent
  | nameErrorTime : LoopEvent

/-- Whether an event creates a directory. -/
def LoopEvent.isMkdir : LoopEvent → Bool
  | .mkdirEvent _ => true
  | _ => false

/-- Pre-loop phase of `networking_monitor.call`: no validation at all.
`os.makedirs(output_dir)` runs first; `frequency = 0` then dies with
`ZeroDivisionError`; otherwise the run directory is created and
`start_time = time.time()` raises `NameError` (`time` is never imported in
`networking_monitor.py`), so the loop body never runs. -/
def networking_call_prelude (d f : Int) (out root : String) :
    List LoopEvent :=
  .mkdirEvent out ::
    (if f = 0 then [.zeroDivisionError]
     else [.mkdirEvent (out ++ "/net_monitor_" ++ root), .nameErrorTime])

/-- The `error.code` of an envelope, when present. -/
def errorCodeOf (v : JVal) : Option Int :=
  match v.lookup "error" with
  | some e =>
    match e.lookup "code" with
    | some (.num n) => some n
    | _ => none
  | none => none

/-! ## Shape lemmas -/

/-- The `{"timestamp", "data", "message"}` object shape of every
networking / io_uring monitor return. -/
def tdmShape (v : JVal) : Bool :=
  match v with
  | .obj fs => fs.map Prod.fst == ["timestamp", "data", "message"]
  | _ => false

theorem tdmShape_isObj (v : JVal) (h : tdmShape v = true) : v.isObj = true := by
  cases v <;> simp_all [tdmShape, JVal.isObj]

theorem tdmShape_msgDict (now msg : String) : tdmShape (msgDict now msg) = true := by
  simp [tdmShape, msgDict]

theorem noNumsList_map {α : Type} (f : α → JVal) (l : List α)
    (h : ∀ x, noNums (f x) = true) : noNumsList (l.map f) = true := by
  induction l with
  | nil => simp [noNumsList]
  | cons x xs ih => simp [noNumsList, h x, ih]

theorem noNums_optStr (o : Option String) : noNums (optStr o) = true := by
  cases o <;> simp [optStr, noNums]

theorem noNums_ruleJson (r : RuleData) : noNums (ruleJson r) = true := by
  simp [ruleJson, noNums, noNumsFields, noNums_optStr,
    noNumsList_map JVal.str r.match_list (fun x => by simp [noNums])]

theorem noNums_chainJson (c : ChainData) : noNums (chainJson c) = true := by
  simp [chainJson, noNums, noNumsFields, noNums_optStr,
    noNumsList_map ruleJson c.rules noNums_ruleJson]

theorem noNums_iptables_result (now : String)
    (chains : Except String (List ChainData)) :
    noNums (iptables_result now chains) = true := by
  cases chains with
  | error e => simp [iptables_result, noNums, noNumsFields, noNumsList]
  | ok cs =>
    simp [iptables_result, noNums, noNumsFields,
      noNumsList_map chainJson cs noNums_chainJson]

theorem tdmShape_iptables_result (now : String)
    (chains : Except String (List ChainData)) :
    tdmShape (iptables_result now chains) = true := by
  cases chains <;> simp [iptables_result, tdmShape]

theorem tdmShape_list_sockets_generic (protocol filename okMsg : String)
    (file : Except String (List String)) (now : String) :
    tdmShape (list_sockets_generic protocol filename okMsg file now) = true := by
  unfold list_sockets_generic
  cases h : parse_proc_net filename file with
  | error e => simp [tdmShape_msgDict]
  | ok socks => simp [tdmShape]

theorem tdmShape_list_network_interfaces
    (entries : Except String (List IfaceEntry)) (now : String) :
    tdmShape (list_network_interfaces entries now) = true := by
  unfold list_network_interfaces
  cases entries <;> simp [tdmShape, msgDict]

theorem tdmShape_list_unix_sockets (file : Except String (List String))
    (now : String) : tdmShape (list_unix_sockets file now) = true := by
  cases file with
  | error e => simp [list_unix_sockets, tdmShape, msgDict]
  | ok ls =>
    simp only [list_unix_sockets]
    cases h : collectLines unix_sock_line (ls.drop 1) <;>
      simp [tdmShape, msgDict]

theorem tdmShape_list_arp_table (file : Except String (List String))
    (now : String) : tdmShape (list_arp_table file now) = true := by
  cases file with
  | error e => simp [list_arp_table, tdmShape, msgDict]
  | ok ls =>
    simp only [list_arp_table]
    cases h : collectLines arp_line (ls.drop 1) <;>
      simp [tdmShape, msgDict]

/-- The value the write step persists for the iptables monitor: the
`json.dumps` string parses back to the `result` dict. -/
theorem net_written_iptables (euid : Nat)
    (chains : Except String (List ChainData)) (now : String) :
    net_written_value (list_iptables_filter_table euid chains now) =
      some (if euid ≠ 0 then
              msgDict now "Error: This function requires root privileges."
            else iptables_result now chains) := by
  unfold list_iptables_filter_table
  by_cases h : euid ≠ 0
  · simp [h, net_written_value]
  · simp [h, net_written_value,
      json_loads_dumps _ (noNums_iptables_result now chains)]

/-- Every value the networking write step persists is a
`{timestamp, data, message}` object. -/
theorem net_written_values_shape (env : NetEnv) (now : String) :
    ∀ p ∈ net_written_values env now, ∃ v, p.2 = some v ∧ tdmShape v = true := by
  intro p hp
  simp only [net_written_values, net_monitor_results, List.map_cons,
    List.map_nil, List.mem_cons, List.not_mem_nil, or_false] at hp
  rcases hp with h | h | h | h | h | h | h | h <;> subst h
  · exact ⟨_, rfl, tdmShape_list_sockets_generic _ _ _ _ _⟩
  · exact ⟨_, rfl, tdmShape_list_sockets_generic _ _ _ _ _⟩
  · exact ⟨_, rfl, tdmShape_list_sockets_generic _ _ _ _ _⟩
  · exact ⟨_, rfl, tdmShape_list_sockets_generic _ _ _ _ _⟩
  · exact ⟨_, rfl, tdmShape_list_network_interfaces _ _⟩
  · refine ⟨_, net_written_iptables env.euid env.chains now, ?_⟩
    by_cases h : env.euid ≠ 0 <;>
      simp [h, tdmShape_msgDict, tdmShape_iptables_result]
  · exact ⟨_, rfl, tdmShape_list_unix_sockets _ _⟩
  · exact ⟨_, rfl, tdmShape_list_arp_table _ _⟩

/-- Every io_uring monitor return is a `{timestamp, data, message}`
object. -/
theorem tdmShape_monitor_io_uring (env : IoUringEnv) (now : String)
    (max_events : Nat) : tdmShape (monitor_io_uring env now max_events) = true := by
  unfold monitor_io_uring
  by_cases h : env.pipeExists
  · simp only [h]
    cases setup_ftrace_io_uring env with
    | error e => simp [tdmShape, msgDict]
    | ok u =>
      cases hr : (if 0 < max_events then
          (resolveGlobal "select").map (fun _ => env.pipeLines.take max_events)
        else .ok []) with
      | error e => simp [hr, tdmShape, msgDict]
      | ok events => simp [hr, tdmShape]
  · simp [h, tdmShape, msgDict]

/-! ## Claim theorems -/

theorem tdm_keys (v : JVal) (h : tdmShape v = true) :
    v.hasKey "timestamp" = true ∧ v.hasKey "data" = true ∧
    v.hasKey "message" = true ∧ v.hasKey "error" = false ∧
    v.hasKey "status" = false ∧ v.hasKey "metadata" = false := by
  cases v with
  | obj fs =>
    simp only [tdmShape, beq_iff_eq] at h
    rcases fs with _ | ⟨⟨k1, v1⟩, fs1⟩
    · simp at h
    rcases fs1 with _ | ⟨⟨k2, v2⟩, fs2⟩
    · simp at h
    rcases fs2 with _ | ⟨⟨k3, v3⟩, fs3⟩
    · simp at h
    rcases fs3 with _ | ⟨g, gs⟩
    · obtain ⟨h1, h2, h3⟩ : k1 = "timestamp" ∧ k2 = "data" ∧ k3 = "message" := by
        simpa using h
      subst h1
      subst h2
      subst h3
      refine ⟨rfl, rfl, rfl, rfl, rfl, rfl⟩
    · simp at h
  | null => simp [tdmShape] at h
  | bool b => simp [tdmShape] at h
  | num n => simp [tdmShape] at h
  | str s => simp [tdmShape] at h
  | arr xs => simp [tdmShape] at h

/-- `error.code` of `make_error_response` is the code passed in. -/
theorem errorCodeOf_make_error (now tt : String) (st : Option String)
    (c : Int) (m : String) :
    errorCodeOf (make_error_response now tt st c m) = some c := rfl

/-- **C1 — counterexample.**  The claim says every value written by the
io_uring loop is an object with the envelope keys `status`,
`metadata.task_type`, `metadata.subtype`.  On the (always reachable)
absent-trace-pipe path the io_uring loop writes an object with *no*
`status` and *no* `metadata` key at all. -/
theorem C1_counterexample :
    (io_uring_written_value ⟨false, .ok "", false, .ok "", .ok "", []⟩
      "2025-01-01T00:00:00Z" 50).lookup "status" = none ∧
    (io_uring_written_value ⟨false, .ok "", false, .ok "", .ok "", []⟩
      "2025-01-01T00:00:00Z" 50).lookup "metadata" = none ∧
    (io_uring_written_value ⟨false, .ok "", false, .ok "", .ok "", []⟩
      "2025-01-01T00:00:00Z" 50).hasKey "data" = true :=
  ⟨rfl, rfl, rfl⟩

/-- **C1 — amended.**  Every value produced by `make_success_response` /
`make_error_response` is a JSON object with `timestamp`, `status`,
`metadata.task_type`, `metadata.subtype` and exactly one of `data`/`error`;
the networking write step and the io_uring loop instead persist objects
with exactly the keys `timestamp`, `data`, `message` — always carrying
`data`, never `error`, and no `status` or `metadata` key. -/
theorem C1_written_object_shapes :
    (∀ now tt st d, envelopeShape (make_success_response now tt st d) = true) ∧
    (∀ now tt st c m, envelopeShape (make_error_response now tt st c m) = true) ∧
    (∀ env now, ∀ p ∈ net_written_values env now, ∃ v, p.2 = some v ∧
      tdmShape v = true ∧ v.hasKey "data" = true ∧ v.hasKey "error" = false ∧
      v.hasKey "status" = false) ∧
    (∀ env now maxE, tdmShape (io_uring_written_value env now maxE) = true ∧
      (io_uring_written_value env now maxE).hasKey "error" = false ∧
      (io_uring_written_value env now maxE).hasKey "data" = true) := by
  refine ⟨fun now tt st d => rfl, fun now tt st c m => rfl, ?_, ?_⟩
  · intro env now p hp
    obtain ⟨v, hv, hshape⟩ := net_written_values_shape env now p hp
    obtain ⟨-, hdata, -, herr, hstatus, -⟩ := tdm_keys v hshape
    exact ⟨v, hv, hshape, hdata, herr, hstatus⟩
  · intro env now maxE
    have hshape := tdmShape_monitor_io_uring env now maxE
    obtain ⟨-, hdata, -, herr, -, -⟩ :=
      tdm_keys (monitor_io_uring env now maxE) hshape
    exact ⟨hshape, herr, hdata⟩

/-- Closed witness for `C1_written_object_shapes`: the tcp6 entry of a
concrete networking iteration. -/
theorem C1_written_object_shapes_witness :
    (("list_tcp6_sockets" : String),
      net_written_value (.inl (list_tcp6_sockets
        ⟨.ok [], .ok [], .ok [], .ok [], .ok [], 1, .ok [], .ok [], .ok []⟩ "T"))) ∈
      net_written_values
        ⟨.ok [], .ok [], .ok [], .ok [], .ok [], 1, .ok [], .ok [], .ok []⟩ "T" ∧
    ∃ v, (net_written_value (.inl (list_tcp6_sockets
        ⟨.ok [], .ok [], .ok [], .ok [], .ok [], 1, .ok [], .ok [], .ok []⟩ "T"))) =
        some v ∧
      tdmShape v = true ∧ v.hasKey "data" = true ∧ v.hasKey "error" = false ∧
      v.hasKey "status" = false := by
  constructor
  · simp [net_written_values, net_monitor_results]
  · have := C1_written_object_shapes.2.2.1
      ⟨.ok [], .ok [], .ok [], .ok [], .ok [], 1, .ok [], .ok [], .ok []⟩ "T"
      (("list_tcp6_sockets" : String),
        net_written_value (.inl (list_tcp6_sockets
          ⟨.ok [], .ok [], .ok [], .ok [], .ok [], 1, .ok [], .ok [], .ok []⟩ "T")))
      (by simp [net_written_values, net_monitor_results])
    exact this

/-- **C2 — claim as stated (code bug in the networking loop).**  Every
`call` computes `num_calls = ceil(duration/frequency)`; `frequency >
duration` gives exactly one iteration; a loop whose iterations never
overrun `duration` writes per snapshot kind exactly the zero-based,
strictly increasing files `<kind>_<root>_<i>.json`, `i < num_calls`, all
sharing one root timestamp — this holds for the seven monitor families
that import `time`.  The networking `call`, however, never reaches its
loop: `networking_monitor.py` does not import `time`, so even on valid
arguments it raises `NameError` at `start_time = time.time()`, after
creating both directories and before iteration 0. -/
theorem C2_loop_iteration_count (d f : Int) (elapsed : Nat → Int)
    (kind root : String) (hd : 0 < d) (hf : 0 < f)
    (hfast : ∀ i, elapsed i ≤ d) :
    (num_calls d f = ⌈(d : ℚ) / (f : ℚ)⌉ ∧
     (d < f → num_calls d f = 1) ∧
     writtenFiles elapsed d f kind root =
       (List.range (num_calls d f).toNat).map (iterFileName kind root)) ∧
    networking_call_prelude 1 1 "./net_output" root =
      [.mkdirEvent "./net_output",
       .mkdirEvent ("./net_output/net_monitor_" ++ root), .nameErrorTime] := by
  refine ⟨loop_iteration_count_spec d f elapsed kind root hd hf hfast, ?_⟩
  simp [networking_call_prelude]

/-- Closed witness for `C2_loop_iteration_count` at `duration = 5`,
`frequency = 2` (`⌈5/2⌉ = 3`) with an instantaneous clock. -/
theorem C2_loop_iteration_count_witness :
    (0 : Int) < 5 ∧ (0 : Int) < 2 ∧ (∀ i : Nat, (fun _ : Nat => (0 : Int)) i ≤ 5) ∧
    ((num_calls 5 2 = ⌈(5 : ℚ) / (2 : ℚ)⌉ ∧
      ((5 : Int) < 2 → num_calls 5 2 = 1) ∧
      writtenFiles (fun _ => 0) 5 2 "kallsyms" "20250101_000000" =
        (List.range (num_calls 5 2).toNat).map
          (iterFileName "kallsyms" "20250101_000000")) ∧
     networking_call_prelude 1 1 "./net_output" "20250101_000000" =
       [.mkdirEvent "./net_output",
        .mkdirEvent ("./net_output/net_monitor_" ++ "20250101_000000"),
        .nameErrorTime]) :=
  ⟨by norm_num, by norm_num, fun _ => by norm_num,
   C2_loop_iteration_count 5 2 (fun _ => 0) "kallsyms" "20250101_000000"
     (by norm_num) (by norm_num) (fun _ => by norm_num)⟩

/-- First element of a JSON array. -/
def arrHead : JVal → Option JVal
  | .arr (x :: _) => some x
  | _ => none

/-- An all-zero `/proc/net/tcp6` row (the `[::]:0` listener form). -/
def tcp6ZeroLine : String :=
  "   0: 00000000000000000000000000000000:0000 " ++
  "00000000000000000000000000000000:0000 0A 00000000:00000000 " ++
  "00:00000000 00000000     0        0 12345 1 0000000000000000 100 0 0 10 0"

/-- A networking environment whose tcp6 table holds the all-zero row. -/
def c3Env : NetEnv :=
  ⟨.ok ["header", tcp6ZeroLine], .ok [], .ok [], .ok [], .ok [], 1, .ok [],
   .ok [], .ok []⟩

/-- **C3 — the socket snapshot never performs the claimed IPv6 decode.**
The spec's decode (modelled in `specDecodeIpv6`) sends sixteen zero bytes
to `::` and the final-group-1 pattern to `::1`; the code
(`parse_proc_net`, reached from `list_tcp6_sockets`) instead applies the
4-byte little-endian dotted-quad decode to the first 8 of the 32 hex
characters, so the all-zero IPv6 address comes out as `0.0.0.0`. -/
theorem C3_tcp6_dotted_quad :
    decode_le_ip "00000000000000000000000000000000" = some "0.0.0.0" ∧
    specDecodeIpv6 "00000000000000000000000000000000" = some "::" ∧
    specDecodeIpv6 "00000000000000000000000001000000" = some "::1" ∧
    ((list_tcp6_sockets c3Env "T").lookup "data").bind
      (fun d => (d.lookup "sockets").bind arrHead) =
      some (sockJson "0.0.0.0" 0 "0.0.0.0" 0 "0A" "12345") ∧
    ("0.0.0.0" : String) ≠ "::" :=
  ⟨rfl, by decide, by decide, rfl, by decide⟩

/-- **C5.**  On a readable kallsyms with valid (or absent) regex filters,
the snapshot is a SUCCESS envelope whose `total_symbols` is the uncapped
post-filter match count, whose `returned_symbols` is the length of the
returned list — `min(total, cap)` when a cap is given, the full list
otherwise; a filter matching nothing yields `0`/`0`, and a cap below the
match count returns exactly `cap` symbols. -/
theorem C5_kallsyms_filter_cap (env : KallsymsEnv) (now : String)
    (nameArg modArg : RegexArg) (cap : Option Int) (lines : List String)
    (hname : regexErr nameArg = none) (hmod : regexErr modArg = none)
    (hex : env.kallsymsExists = true) (hfile : env.kallsymsFile = .ok lines) :
    snapshot_kallsyms env now nameArg modArg cap =
      make_success_response now "STATE" (some "KALLSYMS_SNAPSHOT")
        (kallsymsData
          (kallsymsMatched (kallsymsPasses (regexPred nameArg)
            (regexPred modArg)) lines).length
          (capTakeList cap (kallsymsMatched (kallsymsPasses (regexPred nameArg)
            (regexPred modArg)) lines))
          (regexPattern nameArg) (regexPattern modArg) cap env.kptr) ∧
    (∀ c, cap = some c →
      (capTakeList cap (kallsymsMatched (kallsymsPasses (regexPred nameArg)
        (regexPred modArg)) lines)).length =
      min (kallsymsMatched (kallsymsPasses (regexPred nameArg)
        (regexPred modArg)) lines).length c.toNat) ∧
    (cap = none →
      capTakeList cap (kallsymsMatched (kallsymsPasses (regexPred nameArg)
        (regexPred modArg)) lines) =
      kallsymsMatched (kallsymsPasses (regexPred nameArg)
        (regexPred modArg)) lines) ∧
    (∀ c, cap = some c →
      c.toNat < (kallsymsMatched (kallsymsPasses (regexPred nameArg)
        (regexPred modArg)) lines).length →
      (capTakeList cap (kallsymsMatched (kallsymsPasses (regexPred nameArg)
        (regexPred modArg)) lines)).length = c.toNat) := by
  refine ⟨?_, ?_, ?_, ?_⟩
  · unfold snapshot_kallsyms
    rw [hname, hmod, hfile]
    simp only [hex, not_true_eq_false, if_false, Bool.not_true]
    rw [scanGo_spec]
  · intro c hc
    subst hc
    simp [capTakeList, Nat.min_comm]
  · intro hc
    subst hc
    simp [capTakeList]
  · intro c hc hlt
    subst hc
    simp [capTakeList]
    omega

/-- Closed witness for `C5_kallsyms_filter_cap`: two symbols, a name
filter matching one of them, cap 1. -/
theorem C5_kallsyms_filter_cap_witness :
    regexErr (.valid "al" (fun s => pyStartsWith s "al")) = none ∧
    regexErr .absent = none ∧
    (⟨none, true, .ok ["ffffffff t alpha", "ffffffff t beta [m1]"]⟩ :
      KallsymsEnv).kallsymsExists = true ∧
    (⟨none, true, .ok ["ffffffff t alpha", "ffffffff t beta [m1]"]⟩ :
      KallsymsEnv).kallsymsFile =
      .ok ["ffffffff t alpha", "ffffffff t beta [m1]"] ∧
    (kallsymsMatched (kallsymsPasses
      (regexPred (.valid "al" (fun s => pyStartsWith s "al")))
      (regexPred .absent)) ["ffffffff t alpha", "ffffffff t beta [m1]"]).length
      = 1 ∧
    snapshot_kallsyms ⟨none, true,
        .ok ["ffffffff t alpha", "ffffffff t beta [m1]"]⟩ "T"
        (.valid "al" (fun s => pyStartsWith s "al")) .absent (some 1) =
      make_success_response "T" "STATE" (some "KALLSYMS_SNAPSHOT")
        (kallsymsData
          (kallsymsMatched (kallsymsPasses
            (regexPred (.valid "al" (fun s => pyStartsWith s "al")))
            (regexPred .absent))
            ["ffffffff t alpha", "ffffffff t beta [m1]"]).length
          (capTakeList (some 1) (kallsymsMatched (kallsymsPasses
            (regexPred (.valid "al" (fun s => pyStartsWith s "al")))
            (regexPred .absent))
            ["ffffffff t alpha", "ffffffff t beta [m1]"]))
          (regexPattern (.valid "al" (fun s => pyStartsWith s "al")))
          (regexPattern .absent) (some 1) none) :=
  ⟨rfl, rfl, rfl, rfl, rfl,
   (C5_kallsyms_filter_cap ⟨none, true,
      .ok ["ffffffff t alpha", "ffffffff t beta [m1]"]⟩ "T"
      (.valid "al" (fun s => pyStartsWith s "al")) .absent (some 1)
      ["ffffffff t alpha", "ffffffff t beta [m1]"] rfl rfl rfl rfl).1⟩

/-- **C6 — counterexample.**  The io_uring snapshot with the trace pipe
absent returns an informational `{timestamp, data, message}` dict carrying
*no* error code at all — not a Failure envelope with `IO_FAILURE` or
`TOOL_NOT_AVAILABLE`. -/
theorem C6_counterexample :
    (monitor_io_uring ⟨false, .ok "", false, .ok "", .ok "", []⟩ "T" 50).lookup
      "error" = none ∧
    (monitor_io_uring ⟨false, .ok "", false, .ok "", .ok "", []⟩ "T" 50).lookup
      "status" = none ∧
    (monitor_io_uring ⟨false, .ok "", false, .ok "", .ok "", []⟩ "T" 50).lookup
      "message" = some (.str
        ("ftrace trace_pipe not found. Root privileges and a mounted debugfs " ++
         "are required for kernel-level io_uring event monitoring.")) :=
  ⟨rfl, rfl, rfl⟩

/-- **C6 — amended.**  With the backing interface absent, the kallsyms
snapshot returns an `IO_FAILURE` envelope and the eBPF snapshot a
`TOOL_NOT_AVAILABLE` envelope (and neither raises, both being total); the
io_uring snapshot also never raises, but returns an informational
`{timestamp, data, message}` object with no error code. -/
theorem C6_absent_interface (kenv : KallsymsEnv) (eenv : EbpfEnv)
    (ienv : IoUringEnv) (now : String) (nameArg modArg : RegexArg)
    (cap : Option Int) (maxE : Nat) :
    (regexErr nameArg = none → regexErr modArg = none →
      kenv.kallsymsExists = false →
      snapshot_kallsyms kenv now nameArg modArg cap =
        make_error_response now "STATE" (some "KALLSYMS_SNAPSHOT") IO_FAILURE
          "/proc/kallsyms not found. This kernel/distro may not expose kallsyms.") ∧
    (eenv.bpftool = .notFound → eenv.bcc = .importError →
      monitor_loaded_ebpf eenv now false =
        make_error_response now "STATE" (some "EBPF_ENUMERATION")
          TOOL_NOT_AVAILABLE
          "Neither bpftool nor BCC is available for eBPF enumeration.") ∧
    (ienv.pipeExists = false →
      monitor_io_uring ienv now maxE =
        msgDict now
          ("ftrace trace_pipe not found. Root privileges and a mounted debugfs " ++
           "are required for kernel-level io_uring event monitoring.") ∧
      (monitor_io_uring ienv now maxE).lookup "error" = none ∧
      (monitor_io_uring ienv now maxE).lookup "status" = none) := by
  refine ⟨?_, ?_, ?_⟩
  · intro hname hmod hex
    unfold snapshot_kallsyms
    rw [hname, hmod]
    simp [hex]
  · intro hb hc
    unfold monitor_loaded_ebpf
    rw [hb]
    simp [ebpf_bcc_branch, hc]
  · intro hp
    have hmain : monitor_io_uring ienv now maxE =
        msgDict now
          ("ftrace trace_pipe not found. Root privileges and a mounted debugfs " ++
           "are required for kernel-level io_uring event monitoring.") := by
      unfold monitor_io_uring
      simp [hp, msgDict]
    exact ⟨hmain, by rw [hmain]; rfl, by rw [hmain]; rfl⟩

/-- Closed witness for `C6_absent_interface`. -/
theorem C6_absent_interface_witness :
    regexErr .absent = none ∧
    (⟨none, false, .ok []⟩ : KallsymsEnv).kallsymsExists = false ∧
    (⟨.notFound, .importError⟩ : EbpfEnv).bpftool = .notFound ∧
    (⟨.notFound, .importError⟩ : EbpfEnv).bcc = .importError ∧
    (⟨false, .ok "", false, .ok "", .ok "", []⟩ : IoUringEnv).pipeExists = false ∧
    snapshot_kallsyms ⟨none, false, .ok []⟩ "T" .absent .absent none =
      make_error_response "T" "STATE" (some "KALLSYMS_SNAPSHOT") IO_FAILURE
        "/proc/kallsyms not found. This kernel/distro may not expose kallsyms." ∧
    monitor_loaded_ebpf ⟨.notFound, .importError⟩ "T" false =
      make_error_response "T" "STATE" (some "EBPF_ENUMERATION")
        TOOL_NOT_AVAILABLE
        "Neither bpftool nor BCC is available for eBPF enumeration." :=
  ⟨rfl, rfl, rfl, rfl, rfl,
   (C6_absent_interface ⟨none, false, .ok []⟩ ⟨.notFound, .importError⟩
     ⟨false, .ok "", false, .ok "", .ok "", []⟩ "T" .absent .absent none 50).1
     rfl rfl rfl,
   (C6_absent_interface ⟨none, false, .ok []⟩ ⟨.notFound, .importError⟩
     ⟨false, .ok "", false, .ok "", .ok "", []⟩ "T" .absent .absent none 50).2.1
     rfl rfl⟩

/-- A realistic paren-name stat line (field 3 onward:
state `S`, ppid `0`, …, field 24 (rss) `22222`, field 25 (rsslim)
`611`, …). -/
def statLine1 : String :=
  "1 (systemd) S 0 1 1 0 -1 4194560 100 200 300 400 500 600 700 800 900 " ++
  "1000 20 0 1 0 22222 611 999999 13579"

/-- A stat line whose process name itself carries parentheses,
`(sd-pam)`. -/
def statLine2 : String :=
  "1474 ((sd-pam)) S 1473 1474 1474 0 -1 4194624 100 200 300 400 500 600 " ++
  "700 800 900 1000 20 0 1 0 22222 611 999999 13579"

/-- **C7 — the stat parse is off by one in its parenthesis branch.**  For
the ordinary line `statLine1` the claimed state field is the third
whitespace token `S` and the resident-page count the 24th field `22222`;
the code instead reports `rest[2] = "0"` (the ppid) and `rest[23] = 611`
(field 25, the rss limit), because `rest` lacks the comm token the
fallback indices were written for.  For `statLine2`, whose name is
`(sd-pam)`, the `rfind`-based extraction also returns `sd-pam)` instead
of the full name.  Per-entry failures still only skip the entry:
`monitor_process` drops the unreadable pid `2` and succeeds. -/
theorem C7_stat_offbyone :
    parse_stat statLine1 = some ("systemd", "0", some 611) ∧
    (pySplit statLine1).getD 2 "" = "S" ∧
    (pySplit statLine1).getD 23 "" = "22222" ∧
    ("0" : String) ≠ "S" ∧
    parse_stat statLine2 = some ("sd-pam)", "S", some 22222) ∧
    ("sd-pam)" : String) ≠ "(sd-pam)" ∧
    monitor_process ⟨[⟨"1", .ok statLine1⟩, ⟨"2", .error ()⟩], 4096⟩ "T" =
      make_success_response "T" "STATE" (some "PROCESSES")
        (.obj [("count", .num 1), ("page_size", .num 4096),
               ("processes", .arr [procRecJson 1 "systemd" "0" (some 611) 4096])]) :=
  ⟨rfl, rfl, rfl, by decide, rfl, by decide, rfl⟩

/-- **C8.**  With `bcc_enabled = False` the eBPF snapshot prefers bpftool
and returns its structured program list as a SUCCESS envelope; on
`FileNotFoundError` it falls back to BCC, returning kprobe names only; and
when BCC's import also fails it returns a `TOOL_NOT_AVAILABLE` Failure —
code 1000, no other. -/
theorem C8_ebpf_tool_fallback (env : EbpfEnv) (now : String) :
    (∀ progs, env.bpftool = .ok progs →
      monitor_loaded_ebpf env now false =
        make_success_response now "STATE" (some "EBPF_ENUMERATION")
          (bpftoolData progs)) ∧
    (∀ kprobes, env.bpftool = .notFound → env.bcc = .available kprobes →
      monitor_loaded_ebpf env now false =
        make_success_response now "STATE" (some "EBPF_ENUMERATION")
          (.obj [("loaded_programs", .arr (kprobes.map (fun fn =>
             JVal.obj [("type", .str "kprobe"), ("name", .str fn),
                       ("id", .str "unknown"), ("attach_type", .str "kprobe")]))),
                 ("attachment_points",
                  if kprobes.isEmpty then JVal.obj []
                  else JVal.obj [("kprobe", .arr (kprobes.map JVal.str))])])) ∧
    (env.bpftool = .notFound → env.bcc = .importError →
      monitor_loaded_ebpf env now false =
        make_error_response now "STATE" (some "EBPF_ENUMERATION")
          TOOL_NOT_AVAILABLE
          "Neither bpftool nor BCC is available for eBPF enumeration." ∧
      errorCodeOf (monitor_loaded_ebpf env now false) =
        some TOOL_NOT_AVAILABLE) := by
  refine ⟨?_, ?_, ?_⟩
  · intro progs hb
    unfold monitor_loaded_ebpf
    rw [hb]
    simp
  · intro kprobes hb hc
    unfold monitor_loaded_ebpf
    rw [hb]
    simp [ebpf_bcc_branch, hc]
  · intro hb hc
    have hmain : monitor_loaded_ebpf env now false =
        make_error_response now "STATE" (some "EBPF_ENUMERATION")
          TOOL_NOT_AVAILABLE
          "Neither bpftool nor BCC is available for eBPF enumeration." := by
      unfold monitor_loaded_ebpf
      rw [hb]
      simp [ebpf_bcc_branch, hc]
    exact ⟨hmain, by rw [hmain]; exact errorCodeOf_make_error _ _ _ _ _⟩

/-- Closed witness for `C8_ebpf_tool_fallback`: bpftool absent and the
BCC module failing to come in. -/
theorem C8_ebpf_tool_fallback_witness :
    (⟨.notFound, .importError⟩ : EbpfEnv).bpftool = .notFound ∧
    (⟨.notFound, .importError⟩ : EbpfEnv).bcc = .importError ∧
    monitor_loaded_ebpf ⟨.notFound, .importError⟩ "T" false =
      make_error_response "T" "STATE" (some "EBPF_ENUMERATION")
        TOOL_NOT_AVAILABLE
        "Neither bpftool nor BCC is available for eBPF enumeration." ∧
    errorCodeOf (monitor_loaded_ebpf ⟨.notFound, .importError⟩ "T" false) =
      some TOOL_NOT_AVAILABLE :=
  ⟨rfl, rfl,
   ((C8_ebpf_tool_fallback ⟨.notFound, .importError⟩ "T").2.2 rfl rfl).1,
   ((C8_ebpf_tool_fallback ⟨.notFound, .importError⟩ "T").2.2 rfl rfl).2⟩

/-- A concrete environment on which the ftrace setup succeeds. -/
def ioUringOkEnv : IoUringEnv :=
  ⟨true, .ok "io_uring_setup", false, .ok "", .ok "function nop", []⟩

/-- **C9 — counterexample.**  The claim says that whenever the trace pipe
exists and setup succeeds, `monitor_io_uring` *always* returns the
catch-all error object.  With `max_events = 0` — what the CLI passes by
default, `bin/main.py` declaring `--max-events` with `action="store_true"`
so `False` flows in — the collection guard `len(events) < max_events` is
false at once, the name `select` is never evaluated, and the zero-events
success dict is returned instead of the catch-all. -/
theorem C9_counterexample :
    ioUringOkEnv.pipeExists = true ∧
    setup_ftrace_io_uring ioUringOkEnv = .ok () ∧
    monitor_io_uring ioUringOkEnv "T" 0 =
      .obj [("timestamp", .str "T"),
            ("data", .obj [("total_events", .num 0), ("events", .arr [])]),
            ("message",
             .str "No io_uring events detected in ftrace output.")] ∧
    (monitor_io_uring ioUringOkEnv "T" 0).lookup "message" =
      some (.str "No io_uring events detected in ftrace output.") ∧
    pyStartsWith "No io_uring events detected in ftrace output."
      "Error during io_uring ftrace monitoring" = false :=
  ⟨rfl, rfl, rfl, rfl, by decide⟩

/-- **C9 — amended.**  Whenever the trace pipe exists, the ftrace filter
setup succeeds, and `max_events > 0` — so the `while len(events) <
max_events` body runs at least once — `monitor_io_uring` lands in its
catch-all handler: the body's `select.select` references the unimported
name `select`, raising `NameError`, so the function returns the
timestamp/data/message dict (empty data) whose message starts with
`Error during io_uring ftrace monitoring`, never a collected-events
result.  With `max_events = 0` the loop body never runs and the
zero-events dict is returned instead. -/
theorem C9_select_name_error (env : IoUringEnv) (now : String) (maxE : Nat)
    (h1 : env.pipeExists = true) (h2 : setup_ftrace_io_uring env = .ok ())
    (h3 : 0 < maxE) :
    monitor_io_uring env now maxE =
      msgDict now ("Error during io_uring ftrace monitoring: " ++
        "name \x27select\x27 is not defined") ∧
    (∃ m, (monitor_io_uring env now maxE).lookup "message" = some (.str m) ∧
      pyStartsWith m "Error during io_uring ftrace monitoring" = true) ∧
    (monitor_io_uring env now maxE).lookup "data" = some (.obj []) ∧
    monitor_io_uring env now 0 =
      .obj [("timestamp", .str now),
            ("data", .obj [("total_events", .num 0), ("events", .arr [])]),
            ("message",
             .str "No io_uring events detected in ftrace output.")] := by
  have hmain : monitor_io_uring env now maxE =
      msgDict now ("Error during io_uring ftrace monitoring: " ++
        "name \x27select\x27 is not defined") := by
    unfold monitor_io_uring
    rw [h2]
    simp [h1, h3, resolveGlobal, io_uring_module_globals, Except.map, msgDict]
  have hzero : monitor_io_uring env now 0 =
      .obj [("timestamp", .str now),
            ("data", .obj [("total_events", .num 0), ("events", .arr [])]),
            ("message",
             .str "No io_uring events detected in ftrace output.")] := by
    unfold monitor_io_uring
    rw [h2]
    simp [h1]
  refine ⟨hmain, ⟨"Error during io_uring ftrace monitoring: " ++
    "name \x27select\x27 is not defined", by rw [hmain]; rfl, by decide⟩,
    by rw [hmain]; rfl, hzero⟩

/-- Closed witness for `C9_select_name_error`. -/
theorem C9_select_name_error_witness :
    ioUringOkEnv.pipeExists = true ∧
    setup_ftrace_io_uring ioUringOkEnv = .ok () ∧
    0 < 50 ∧
    monitor_io_uring ioUringOkEnv "T" 50 =
      msgDict "T" ("Error during io_uring ftrace monitoring: " ++
        "name \x27select\x27 is not defined") :=
  ⟨rfl, rfl, by norm_num,
   (C9_select_name_error ioUringOkEnv "T" 50 rfl rfl (by norm_num)).1⟩

/-- **C10.**  `list_iptables_filter_table` returns a dict exactly on the
non-root path and a `json.dumps` string on every other path (success and
internal iptables error alike); the networking write step parses string
results back before writing, so every value it persists — the iptables one
included — is a JSON object. -/
theorem C10_iptables_string_compensation :
    (∀ chains now euid, euid ≠ 0 →
      list_iptables_filter_table euid chains now =
        .inl (msgDict now "Error: This function requires root privileges.")) ∧
    (∀ chains now, list_iptables_filter_table 0 chains now =
      .inr (json_dumps (iptables_result now chains))) ∧
    (∀ euid chains now,
      net_written_value (list_iptables_filter_table euid chains now) =
        some (if euid ≠ 0 then
                msgDict now "Error: This function requires root privileges."
              else iptables_result now chains)) ∧
    (∀ env now, ∀ p ∈ net_written_values env now,
      ∃ v, p.2 = some v ∧ v.isObj = true) := by
  refine ⟨?_, ?_, ?_, ?_⟩
  · intro chains now euid h
    simp [list_iptables_filter_table, h]
  · intro chains now
    simp [list_iptables_filter_table]
  · intro euid chains now
    exact net_written_iptables euid chains now
  · intro env now p hp
    obtain ⟨v, hv, hshape⟩ := net_written_values_shape env now p hp
    exact ⟨v, hv, tdmShape_isObj v hshape⟩

/-- Closed witness for `C10_iptables_string_compensation`: the root path
round-trips through `json.dumps`/`json.loads` and persists the `result`
object. -/
theorem C10_iptables_string_compensation_witness :
    (1 : Nat) ≠ 0 ∧
    list_iptables_filter_table 1 (.ok []) "T" =
      .inl (msgDict "T" "Error: This function requires root privileges.") ∧
    list_iptables_filter_table 0 (.ok []) "T" =
      .inr (json_dumps (iptables_result "T" (.ok []))) ∧
    net_written_value (list_iptables_filter_table 0 (.ok []) "T") =
      some (iptables_result "T" (.ok [])) :=
  ⟨by norm_num,
   C10_iptables_string_compensation.1 (.ok []) "T" 1 (by norm_num),
   C10_iptables_string_compensation.2.1 (.ok []) "T",
   by
    have := C10_iptables_string_compensation.2.2.1 0 (.ok []) "T"
    simpa using this⟩

end CluelessAdmin
